import Mathlib

/-!
# Thread data allocation and global state of the function boundary tracer

A shallow embedding of `Jpfbt/jpfbt/km_buffer.c`: the two interlocked
singly linked lists of thread data structures (the preallocation list and
the list of delayed frees), the routines that allocate and free a thread
data structure depending on the current IRQL, and creation and teardown of
the global state.

Pointers that may be `NULL` are `Option Ptr`; an address is a natural
number.  The calls into the kernel whose outcome the code cannot predict
(pool allocation, attaching data to a thread, creating the collector
thread) take their outcome as an argument.
-/

namespace Jpfbt

/-! ## Kernel vocabulary -/

abbrev Ptr := Nat

abbrev PETHREAD := Nat

abbrev NTSTATUS := Int

def STATUS_SUCCESS : NTSTATUS := 0

def STATUS_INVALID_PARAMETER : NTSTATUS := -1073741811

def STATUS_NO_MEMORY : NTSTATUS := -1073741801

/-- The `NT_SUCCESS` test of the kernel headers: a status is a success when it is not negative. -/
def NT_SUCCESS (Status : NTSTATUS) : Bool := decide (0 ≤ Status)

def DISPATCH_LEVEL : Nat := 2

/-- The interlocked increment of a 32 bit signed `LONG`: the successor, wrapping from
`2^31 - 1` to `-2^31`. -/
def InterlockedIncrement (Addend : Int) : Int :=
  (Addend + 1 + 2147483648) % 4294967296 - 2147483648

/-- An interlocked singly linked list is embedded as the list of the structures on it, the
most recently pushed first.  `InitializeSListHead` yields the empty list. -/
def InitializeSListHead : List Ptr := []

def InterlockedPushEntrySList (ListHead : List Ptr) (Entry : Ptr) : List Ptr :=
  Entry :: ListHead

/-- Popping yields the first entry (or `NULL` for an empty list) and the remaining list. -/
def InterlockedPopEntrySList (ListHead : List Ptr) : Option Ptr × List Ptr :=
  match ListHead with
  | [] => (none, [])
  | Entry :: Rest => (some Entry, Rest)

/-! ## Data model -/

/-- Modelled from the spec: the enumeration of allocation types is declared in the private
header `jpfbtp.h`, which is not among the sources; the spec lists its three tags and the
code uses them under these names. -/
inductive JPFBT_THREAD_DATA_ALLOCATION_TYPE where
  | JpfbtpPoolAllocated
  | JpfbtpPreAllocated
  | JpfbtpPseudoAllocation
  deriving DecidableEq

open JPFBT_THREAD_DATA_ALLOCATION_TYPE

/-- The fields of `JPFBT_THREAD_DATA` that `km_buffer.c` reads and writes: the allocation type
and `Association.Thread`. -/
structure JPFBT_THREAD_DATA where
  AllocationType : JPFBT_THREAD_DATA_ALLOCATION_TYPE
  AssociationThread : Option PETHREAD
  deriving DecidableEq

/-- The fields of `JPFBT_GLOBAL_DATA` that `km_buffer.c` reads and writes. -/
structure JPFBT_GLOBAL_DATA where
  ThreadDataPreallocationList : List Ptr
  ThreadDataFreeList : List Ptr
  ThreadDataPreallocationBlob : Option Ptr
  FailedDirqlThreadDataAllocations : Int
  BufferCollectorThread : Option Ptr
  StopBufferCollector : Int
  deriving DecidableEq

/-- The state the thread data routines work on: the structure `JpfbtpGlobalState` points to,
the contents of the thread data structures by address, the data attached to each thread, and
the log of the blocks handed to `JpfbtpAllocateNonPagedMemory` and
`JpfbtpFreeNonPagedMemory`, oldest first. -/
structure State where
  Global : JPFBT_GLOBAL_DATA
  Memory : Ptr → JPFBT_THREAD_DATA
  Tls : PETHREAD → Option Ptr
  Allocated : List Ptr
  Freed : List Ptr

def setAllocationType (Memory : Ptr → JPFBT_THREAD_DATA) (ThreadData : Ptr)
    (Tag : JPFBT_THREAD_DATA_ALLOCATION_TYPE) : Ptr → JPFBT_THREAD_DATA :=
  fun p => if p = ThreadData then { Memory p with AllocationType := Tag } else Memory p

def setAssociationThread (Memory : Ptr → JPFBT_THREAD_DATA) (ThreadData : Ptr)
    (Thread : Option PETHREAD) : Ptr → JPFBT_THREAD_DATA :=
  fun p => if p = ThreadData then { Memory p with AssociationThread := Thread } else Memory p

/-- Modelled from the spec: `JpfbtGetFbtDataCurrentThread` belongs to the thread local storage
module, which is not among the sources; it yields the data attached to the current thread. -/
def JpfbtGetFbtDataCurrentThread (Tls : PETHREAD → Option Ptr) (CurrentThread : PETHREAD) :
    Option Ptr :=
  Tls CurrentThread

/-- Modelled from the spec: `JpfbtSetFbtDataThread` belongs to the thread local storage module,
which is not among the sources.  Attaching data to a thread may fail, with the status the
kernel reports in `Outcome`, and then leaves the association as it was; detaching
(`Data = NULL`) cannot fail. -/
def JpfbtSetFbtDataThread (Tls : PETHREAD → Option Ptr) (Thread : PETHREAD)
    (Data : Option Ptr) (Outcome : NTSTATUS) : NTSTATUS × (PETHREAD → Option Ptr) :=
  match Data with
  | none => (STATUS_SUCCESS, fun t => if t = Thread then none else Tls t)
  | some d =>
    if NT_SUCCESS Outcome then (Outcome, fun t => if t = Thread then some d else Tls t)
    else (Outcome, Tls)

/-! ## Freeing a thread data structure -/

/-- The loop of `JpfbtpFreeThreadData` that pops the delayed frees one by one and frees each
until the list is empty: the remaining list and the log of frees. -/
def drainThreadDataFreeList : List Ptr → List Ptr → List Ptr × List Ptr
  | [], Freed => ((InterlockedPopEntrySList []).2, Freed)
  | Entry :: Rest, Freed => drainThreadDataFreeList Rest (Freed ++ [Entry])

def JpfbtpFreeThreadData (s : State) (Irql : Nat) (ThreadData : Ptr) : State :=
  let s1 : State :=
    match (s.Memory ThreadData).AssociationThread with
    | some Thread => { s with Tls := (JpfbtSetFbtDataThread s.Tls Thread none STATUS_SUCCESS).2 }
    | none => s
  if (s1.Memory ThreadData).AllocationType = JpfbtpPoolAllocated then
    if Irql ≤ DISPATCH_LEVEL then
      let drained := drainThreadDataFreeList s1.Global.ThreadDataFreeList
        (s1.Freed ++ [ThreadData])
      { s1 with
        Global := { s1.Global with ThreadDataFreeList := drained.1 }
        Freed := drained.2 }
    else
      { s1 with
        Global := { s1.Global with
          ThreadDataFreeList :=
            InterlockedPushEntrySList s1.Global.ThreadDataFreeList ThreadData } }
  else
    { s1 with
      Global := { s1.Global with
        ThreadDataPreallocationList :=
          InterlockedPushEntrySList s1.Global.ThreadDataPreallocationList ThreadData } }

/-! ## Allocating a thread data structure -/

/-- What a call of `JpfbtpAllocateThreadDataForCurrentThread` gets from its surroundings: the
address of its stack buffer for the pseudo thread data, the status of attaching that pseudo
thread data, the result of `JpfbtpAllocateNonPagedMemory`, and the status of attaching the structure
obtained. -/
structure AllocationEnvironment where
  PseudoThreadDataBuffer : Ptr
  PseudoStatus : NTSTATUS
  Allocation : Option Ptr
  AttachStatus : NTSTATUS

/-- The stack buffer is filled in as a pseudo thread data structure of the current thread. -/
def setPseudoThreadData (Memory : Ptr → JPFBT_THREAD_DATA) (PseudoThreadData : Ptr)
    (CurrentThread : PETHREAD) : Ptr → JPFBT_THREAD_DATA :=
  fun p =>
    if p = PseudoThreadData then
      { AllocationType := JpfbtpPseudoAllocation, AssociationThread := some CurrentThread }
    else Memory p

/-- The common tail of `JpfbtpAllocateThreadDataForCurrentThread`: attach the structure, if
there is one, to the current thread, and free it again when that fails. -/
def attachThreadData (s : State) (CurrentThread : PETHREAD) (Irql : Nat)
    (env : AllocationEnvironment) (ThreadData : Option Ptr) : Option Ptr × State :=
  match ThreadData with
  | none => (none, s)
  | some td =>
    let s1 : State := { s with Memory := setAssociationThread s.Memory td (some CurrentThread) }
    let r := JpfbtSetFbtDataThread s1.Tls CurrentThread (some td) env.AttachStatus
    let s2 : State := { s1 with Tls := r.2 }
    if NT_SUCCESS r.1 then (some td, s2)
    else
      let s3 : State := { s2 with Memory := setAssociationThread s2.Memory td none }
      (none, JpfbtpFreeThreadData s3 Irql td)

def JpfbtpAllocateThreadDataForCurrentThread (s : State) (CurrentThread : PETHREAD)
    (Irql : Nat) (env : AllocationEnvironment) : Option Ptr × State :=
  if Irql ≤ DISPATCH_LEVEL then
    let s1 : State := { s with
      Memory := setPseudoThreadData s.Memory env.PseudoThreadDataBuffer CurrentThread }
    let r := JpfbtSetFbtDataThread s1.Tls CurrentThread (some env.PseudoThreadDataBuffer)
      env.PseudoStatus
    let s2 : State := { s1 with Tls := r.2 }
    if NT_SUCCESS r.1 then
      let s3 : State :=
        match env.Allocation with
        | some td => { s2 with
            Memory := setAllocationType s2.Memory td JpfbtpPoolAllocated
            Allocated := s2.Allocated ++ [td] }
        | none => s2
      let s4 : State := { s3 with
        Tls := (JpfbtSetFbtDataThread s3.Tls CurrentThread none STATUS_SUCCESS).2 }
      attachThreadData s4 CurrentThread Irql env env.Allocation
    else (none, s2)
  else
    let popped := InterlockedPopEntrySList s.Global.ThreadDataPreallocationList
    match popped.1 with
    | none =>
      attachThreadData
        { s with Global := { s.Global with
            ThreadDataPreallocationList := popped.2
            FailedDirqlThreadDataAllocations :=
              InterlockedIncrement s.Global.FailedDirqlThreadDataAllocations } }
        CurrentThread Irql env none
    | some td =>
      attachThreadData
        { s with
          Global := { s.Global with ThreadDataPreallocationList := popped.2 }
          Memory := setAllocationType s.Memory td JpfbtpPreAllocated }
        CurrentThread Irql env (some td)

/-! ## Looking up the thread data of the current thread -/

/-- The status `STATUS_FBT_REENTRANT_ALLOCATION` is defined in a header that is not among the
sources, so its value is an argument.  The state is returned as the routine leaves it. -/
def JpfbtpGetCurrentThreadDataIfAvailable (s : State) (CurrentThread : PETHREAD)
    (STATUS_FBT_REENTRANT_ALLOCATION : NTSTATUS) : NTSTATUS × Option Ptr × State :=
  let ExistingThreadData := JpfbtGetFbtDataCurrentThread s.Tls CurrentThread
  match ExistingThreadData with
  | some td =>
    if (s.Memory td).AllocationType = JpfbtpPseudoAllocation then
      (STATUS_FBT_REENTRANT_ALLOCATION, none, s)
    else (STATUS_SUCCESS, ExistingThreadData, s)
  | none => (STATUS_SUCCESS, ExistingThreadData, s)

/-- Whether the data attached to a thread is a pseudo thread data structure, the mark of an
allocation in progress on that thread. -/
def isReentrancyGuard (s : State) (Thread : PETHREAD) : Bool :=
  match s.Tls Thread with
  | some td => decide ((s.Memory td).AllocationType = JpfbtpPseudoAllocation)
  | none => false

/-! ## Preallocation -/

/-- The structures of the preallocated block are `sizeofThreadData` bytes apart; the size of
`JPFBT_THREAD_DATA` is not known from the sources and is an argument, as is the result of
`JpfbtpAllocateNonPagedMemory`. -/
def JpfbtsPreallocateThreadData (ThreadDataPreallocations : Nat) (State : JPFBT_GLOBAL_DATA)
    (sizeofThreadData : Nat) (Allocation : Option Ptr) : NTSTATUS × JPFBT_GLOBAL_DATA :=
  match Allocation with
  | none => (STATUS_NO_MEMORY, State)
  | some a =>
    (STATUS_SUCCESS,
      { State with
        ThreadDataPreallocationList :=
          (List.range ThreadDataPreallocations).foldl
            (fun ListHead Index =>
              InterlockedPushEntrySList ListHead (a + Index * sizeofThreadData))
            State.ThreadDataPreallocationList
        ThreadDataPreallocationBlob := some a })

/-- The log of frees after `JpfbtsFreePreallocatedThreadData`. -/
def JpfbtsFreePreallocatedThreadData (State : JPFBT_GLOBAL_DATA) (Freed : List Ptr) :
    List Ptr :=
  match State.ThreadDataPreallocationBlob with
  | some Blob => Freed ++ [Blob]
  | none => Freed

/-! ## Global state -/

/-- The state creation and teardown work on: the pointer `JpfbtpGlobalState`, the contents of
global data structures by address, whether the kernel thread local storage is set up, the
handles closed, and the logs of blocks allocated and freed. -/
structure System where
  JpfbtpGlobalState : Option Ptr
  GlobalData : Ptr → JPFBT_GLOBAL_DATA
  KernelTls : Bool
  ClosedHandles : List (Option Ptr)
  Allocated : List Ptr
  Freed : List Ptr

/-- What a call of `JpfbtpCreateGlobalState` gets from the routines it calls:
the status of `JpfbtpAllocateGlobalStateAndBuffers` with the address and the initial contents
of the structure it allocates, the status of `JpfbtpInitializeKernelTls`, the block
`JpfbtpAllocateNonPagedMemory` returns for the preallocation, the statuses of
`PsCreateSystemThread` and `ObReferenceObjectByHandle`, and the thread object. -/
structure CreationEnvironment where
  AllocateStatus : NTSTATUS
  TempState : Ptr
  InitialData : JPFBT_GLOBAL_DATA
  TlsStatus : NTSTATUS
  sizeofThreadData : Nat
  ThreadDataAllocation : Option Ptr
  CreateThreadStatus : NTSTATUS
  ReferenceStatus : NTSTATUS
  CollectorThreadObject : Ptr

def setGlobalData (GlobalData : Ptr → JPFBT_GLOBAL_DATA) (Address : Ptr)
    (Data : JPFBT_GLOBAL_DATA) : Ptr → JPFBT_GLOBAL_DATA :=
  fun p => if p = Address then Data else GlobalData p

/-- Modelled from the spec: `JpfbtpAllocateGlobalStateAndBuffers` is not among the sources.
On success it has allocated the global data structure; on failure it has allocated nothing. -/
def JpfbtpAllocateGlobalStateAndBuffers (sys : System) (_BufferCount _BufferSize : Nat)
    (env : CreationEnvironment) : NTSTATUS × System :=
  if NT_SUCCESS env.AllocateStatus then
    (env.AllocateStatus,
      { sys with
        GlobalData := setGlobalData sys.GlobalData env.TempState env.InitialData
        Allocated := sys.Allocated ++ [env.TempState] })
  else (env.AllocateStatus, sys)

/-- The code after the label `Cleanup` of `JpfbtpCreateGlobalState`. -/
def JpfbtpCreateGlobalState.Cleanup (sys : System) (Status : NTSTATUS) (TempState : Ptr)
    (TlsInitialized : Bool) : NTSTATUS × System :=
  if NT_SUCCESS Status then (Status, sys)
  else
    let sys1 : System := { sys with
      Freed := JpfbtsFreePreallocatedThreadData (sys.GlobalData TempState) sys.Freed ++
        [TempState]
      JpfbtpGlobalState := none }
    if TlsInitialized then (Status, { sys1 with KernelTls := false }) else (Status, sys1)

/-- The constants `JPFBT_MAX_BUFFER_SIZE` and `MEMORY_ALLOCATION_ALIGNMENT` come from headers
that are not among the sources and are arguments.  `JpfbtpInitializeBuffersGlobalState` and
the initialization of the mutex and the event touch none of the fields kept here.  When
`ObReferenceObjectByHandle` fails, the code closes `BufferCollectorThread` and goes on to
`Status = STATUS_SUCCESS`. -/
def JpfbtpCreateGlobalState (sys : System) (JPFBT_MAX_BUFFER_SIZE : Nat)
    (MEMORY_ALLOCATION_ALIGNMENT : Nat) (BufferCount BufferSize ThreadDataPreallocations : Nat)
    (StartCollectorThread : Bool) (env : CreationEnvironment) : NTSTATUS × System :=
  if ThreadDataPreallocations > 1024 ∨ BufferSize > JPFBT_MAX_BUFFER_SIZE ∨
      BufferSize % MEMORY_ALLOCATION_ALIGNMENT ≠ 0 then
    (STATUS_INVALID_PARAMETER, sys)
  else
    let a := JpfbtpAllocateGlobalStateAndBuffers sys BufferCount BufferSize env
    if ¬ NT_SUCCESS a.1 then a
    else if ¬ NT_SUCCESS env.TlsStatus then
      JpfbtpCreateGlobalState.Cleanup a.2 env.TlsStatus env.TempState false
    else
      let sys1 : System := { a.2 with KernelTls := true }
      let Temp0 : JPFBT_GLOBAL_DATA := { sys1.GlobalData env.TempState with
        ThreadDataPreallocationList := InitializeSListHead
        ThreadDataFreeList := InitializeSListHead }
      let pre := JpfbtsPreallocateThreadData ThreadDataPreallocations Temp0
        env.sizeofThreadData env.ThreadDataAllocation
      let sys2 : System := { sys1 with
        GlobalData := setGlobalData sys1.GlobalData env.TempState pre.2
        Allocated :=
          match env.ThreadDataAllocation with
          | some a => sys1.Allocated ++ [a]
          | none => sys1.Allocated }
      if ¬ NT_SUCCESS pre.1 then
        JpfbtpCreateGlobalState.Cleanup sys2 pre.1 env.TempState true
      else
        let sys3 : System := { sys2 with JpfbtpGlobalState := some env.TempState }
        if StartCollectorThread then
          if ¬ NT_SUCCESS env.CreateThreadStatus then
            JpfbtpCreateGlobalState.Cleanup sys3 env.CreateThreadStatus env.TempState true
          else if ¬ NT_SUCCESS env.ReferenceStatus then
            JpfbtpCreateGlobalState.Cleanup
              { sys3 with ClosedHandles := sys3.ClosedHandles ++
                  [(sys3.GlobalData env.TempState).BufferCollectorThread] }
              STATUS_SUCCESS env.TempState true
          else
            let Referenced : JPFBT_GLOBAL_DATA := { sys3.GlobalData env.TempState with
              BufferCollectorThread := some env.CollectorThreadObject }
            JpfbtpCreateGlobalState.Cleanup
              { sys3 with GlobalData := setGlobalData sys3.GlobalData env.TempState Referenced }
              STATUS_SUCCESS env.TempState true
        else JpfbtpCreateGlobalState.Cleanup sys3 STATUS_SUCCESS env.TempState true

/-- The assertions of `JpfbtpFreeGlobalState` have no effect in a free build; with
`JpfbtpGlobalState` being `NULL` the routine does nothing. -/
def JpfbtpFreeGlobalState (sys : System) : System :=
  match sys.JpfbtpGlobalState with
  | some GlobalState =>
    { sys with
      Freed := JpfbtsFreePreallocatedThreadData (sys.GlobalData GlobalState) sys.Freed ++
        [GlobalState]
      JpfbtpGlobalState := none
      KernelTls := false }
  | none => sys

/-! ## Runs of the preallocation pool -/

/-- A call on the pool of preallocated structures: an allocation for the current thread, or the
release of a structure. -/
inductive PoolCall where
  | acquire (CurrentThread : PETHREAD) (Irql : Nat) (env : AllocationEnvironment)
  | release (ThreadData : Ptr) (Irql : Nat)

/-- One call on the pool, together with the structures callers own: an allocation must be made
above `DISPATCH_LEVEL` and hands the structure it returns to the caller; a release must be of
a structure a caller owns. -/
def poolStep (r : State × List Ptr) : PoolCall → Option (State × List Ptr)
  | PoolCall.acquire CurrentThread Irql env =>
    if DISPATCH_LEVEL < Irql then
      let a := JpfbtpAllocateThreadDataForCurrentThread r.1 CurrentThread Irql env
      match a.1 with
      | some td => some (a.2, td :: r.2)
      | none => some (a.2, r.2)
    else none
  | PoolCall.release ThreadData Irql =>
    if ThreadData ∈ r.2 then some (JpfbtpFreeThreadData r.1 Irql ThreadData, r.2.erase ThreadData)
    else none

def poolRun : List PoolCall → State × List Ptr → Option (State × List Ptr)
  | [], r => some r
  | c :: cs, r =>
    match poolStep r c with
    | some r1 => poolRun cs r1
    | none => none

/-! ## Example states -/

def exampleGlobal : JPFBT_GLOBAL_DATA :=
  { ThreadDataPreallocationList := [101, 102]
    ThreadDataFreeList := [201, 202]
    ThreadDataPreallocationBlob := some 100
    FailedDirqlThreadDataAllocations := 0
    BufferCollectorThread := none
    StopBufferCollector := 0 }

/-- A state with two preallocated structures on the preallocation list and a third one, at
address 100, attached to thread 7; two delayed frees; two pool allocated structures at 300
(attached to thread 8) and 301. -/
def exampleState : State :=
  { Global := exampleGlobal
    Memory := fun p =>
      if p = 100 then { AllocationType := JpfbtpPreAllocated, AssociationThread := some 7 }
      else if p = 101 ∨ p = 102 then
        { AllocationType := JpfbtpPreAllocated, AssociationThread := none }
      else if p = 300 then { AllocationType := JpfbtpPoolAllocated, AssociationThread := some 8 }
      else { AllocationType := JpfbtpPoolAllocated, AssociationThread := none }
    Tls := fun t => if t = 7 then some 100 else if t = 8 then some 300 else none
    Allocated := [100, 201, 202, 300, 301]
    Freed := [] }

/-- A system in which no global state exists yet. -/
def exampleSystem : System :=
  { JpfbtpGlobalState := none
    GlobalData := fun _ => exampleGlobal
    KernelTls := false
    ClosedHandles := []
    Allocated := []
    Freed := [] }

/-- All routines `JpfbtpCreateGlobalState` calls succeed: the global data is allocated at 5000
with all fields zero, the preallocated block at 6000. -/
def exampleCreation : CreationEnvironment :=
  { AllocateStatus := 0
    TempState := 5000
    InitialData :=
      { ThreadDataPreallocationList := []
        ThreadDataFreeList := []
        ThreadDataPreallocationBlob := none
        FailedDirqlThreadDataAllocations := 0
        BufferCollectorThread := none
        StopBufferCollector := 0 }
    TlsStatus := 0
    sizeofThreadData := 64
    ThreadDataAllocation := some 6000
    CreateThreadStatus := 0
    ReferenceStatus := 0
    CollectorThreadObject := 7000 }

/-- The state after `JpfbtpCreateGlobalState` with one preallocated structure. -/
def exampleCreated : State :=
  { Global := (JpfbtpCreateGlobalState exampleSystem 65536 8 8 4096 1 true
      exampleCreation).2.GlobalData 5000
    Memory := fun _ => { AllocationType := JpfbtpPoolAllocated, AssociationThread := none }
    Tls := fun _ => none
    Allocated := [5000, 6000]
    Freed := [] }

/-- The example state with an empty preallocation list and the counter of failed allocations
at the largest `LONG`. -/
def exampleExhausted : State :=
  { exampleState with
    Global := { exampleGlobal with
      ThreadDataPreallocationList := []
      FailedDirqlThreadDataAllocations := 2147483647 } }

/-- An allocation during which the structure cannot be attached to the thread. -/
def exampleAttachFails : AllocationEnvironment :=
  { PseudoThreadDataBuffer := 900, PseudoStatus := 0, Allocation := some 400,
    AttachStatus := STATUS_NO_MEMORY }

/-- An allocation during which every call succeeds. -/
def exampleAttachSucceeds : AllocationEnvironment :=
  { PseudoThreadDataBuffer := 900, PseudoStatus := 0, Allocation := some 400,
    AttachStatus := STATUS_SUCCESS }

/-- What the claims about the pool maintain along a run that starts with `N` structures on the
preallocation list and none owned: the structures owned and those on the list are `N`
altogether and pairwise distinct, and every structure owned is tagged `JpfbtpPreAllocated`. -/
def PoolInvariant (N : Nat) (r : State × List Ptr) : Prop :=
  r.2.length + r.1.Global.ThreadDataPreallocationList.length = N ∧
    (r.2 ++ r.1.Global.ThreadDataPreallocationList).Nodup ∧
    ∀ td ∈ r.2, (r.1.Memory td).AllocationType = JpfbtpPreAllocated

/-- Two allocations above `DISPATCH_LEVEL`, a release, an allocation that fails to attach, an
allocation, and an allocation from the then empty pool. -/
def exampleCalls : List PoolCall :=
  [PoolCall.acquire 9 5 exampleAttachSucceeds,
    PoolCall.acquire 10 5 exampleAttachSucceeds,
    PoolCall.release 6064 0,
    PoolCall.acquire 11 7 exampleAttachFails,
    PoolCall.acquire 11 7 exampleAttachSucceeds,
    PoolCall.acquire 12 7 exampleAttachSucceeds]

/-- The system at teardown after the pool allocated structure 300 of the example state has been
released at IRQL 5: the global data lives at 5000. -/
def exampleTeardown : System :=
  { JpfbtpGlobalState := some 5000
    GlobalData := fun _ => (JpfbtpFreeThreadData exampleState 5 300).Global
    KernelTls := true
    ClosedHandles := []
    Allocated := 5000 :: (JpfbtpFreeThreadData exampleState 5 300).Allocated
    Freed := (JpfbtpFreeThreadData exampleState 5 300).Freed }

/-- The example creation, except that `ObReferenceObjectByHandle` fails. -/
def exampleReferenceFails : CreationEnvironment :=
  { exampleCreation with ReferenceStatus := STATUS_INVALID_PARAMETER }

/-- The example creation, except that `PsCreateSystemThread` fails. -/
def exampleCreateThreadFails : CreationEnvironment :=
  { exampleCreation with CreateThreadStatus := STATUS_NO_MEMORY }

/-! ## Shutdown of the dirty buffer collector -/

def STATUS_TIMEOUT : NTSTATUS := 258

/-- A call made during `JpfbtpShutdownDirtyBufferCollector`, as it is logged:
`JpfbtProcessBuffer` with its timeout and the status it returned, the interlocked increment
of `StopBufferCollector`, `KeSetEvent` on the collector event, `KeWaitForSingleObject` and
`ObDereferenceObject` on the collector thread. -/
inductive CollectorCall where
  | processBuffer (Timeout : Nat) (Status : NTSTATUS)
  | incrementStop
  | setEvent
  | waitForThread (Thread : Ptr)
  | dereference (Thread : Ptr)
  deriving DecidableEq

/-- The state the shutdown of the collector works on: the structure `JpfbtpGlobalState`
points to, the dirty buffers, the buffers handed to the consumer so far, and the log of
calls, oldest first. -/
structure Collector where
  Global : JPFBT_GLOBAL_DATA
  DirtyBuffers : List Ptr
  Consumed : List Ptr
  Calls : List CollectorCall

/-- Modelled from the spec: `JpfbtProcessBuffer` is not among the sources.  Called with a
timeout of zero, it hands one dirty buffer to the consumer and returns success when there is
a dirty buffer, and returns `STATUS_TIMEOUT` without any effect when there is none.  Only
the timeout of zero is modelled; every call is logged. -/
def JpfbtProcessBuffer (c : Collector) (Timeout : Nat) : NTSTATUS × Collector :=
  match c.DirtyBuffers with
  | Buffer :: Rest =>
    (STATUS_SUCCESS,
      { c with
        DirtyBuffers := Rest
        Consumed := c.Consumed ++ [Buffer]
        Calls := c.Calls ++ [CollectorCall.processBuffer Timeout STATUS_SUCCESS] })
  | [] =>
    (STATUS_TIMEOUT,
      { c with Calls := c.Calls ++ [CollectorCall.processBuffer Timeout STATUS_TIMEOUT] })

/-- The loop of `JpfbtpShutdownDirtyBufferCollector` that calls `JpfbtProcessBuffer` with a
timeout of zero until it returns `STATUS_TIMEOUT`; `fuel` bounds the number of calls, and
the result is `none` when that bound is reached before the loop ends. -/
def JpfbtpShutdownDirtyBufferCollector.drain : Nat → Collector → Option Collector
  | 0, _ => none
  | fuel + 1, c =>
    let r := JpfbtProcessBuffer c 0
    if STATUS_TIMEOUT ≠ r.1 then JpfbtpShutdownDirtyBufferCollector.drain fuel r.2
    else some r.2

def JpfbtpShutdownDirtyBufferCollector (fuel : Nat) (c : Collector) : Option Collector :=
  match JpfbtpShutdownDirtyBufferCollector.drain fuel c with
  | none => none
  | some c1 =>
    match c1.Global.BufferCollectorThread with
    | some Thread =>
      some { c1 with
        Global := { c1.Global with
          StopBufferCollector := InterlockedIncrement c1.Global.StopBufferCollector
          BufferCollectorThread := none }
        Calls := c1.Calls ++
          [CollectorCall.incrementStop, CollectorCall.setEvent,
            CollectorCall.waitForThread Thread, CollectorCall.dereference Thread] }
    | none => some c1

theorem drainThreadDataFreeList_eq (l Freed : List Ptr) :
    drainThreadDataFreeList l Freed = ([], Freed ++ l) := by
  induction l generalizing Freed with
  | nil => simp [drainThreadDataFreeList, InterlockedPopEntrySList]
  | cons e rest ih => simp [drainThreadDataFreeList, ih]

/-- A structure that is not pool allocated goes back to the preallocation list, whatever the
IRQL; nothing else of the global data, the memory or the logs changes. -/
theorem JpfbtpFreeThreadData_prealloc (s : State) (Irql : Nat) (ThreadData : Ptr)
    (h : (s.Memory ThreadData).AllocationType ≠ JpfbtpPoolAllocated) :
    (JpfbtpFreeThreadData s Irql ThreadData).Global =
        { s.Global with ThreadDataPreallocationList :=
            ThreadData :: s.Global.ThreadDataPreallocationList } ∧
      (JpfbtpFreeThreadData s Irql ThreadData).Freed = s.Freed ∧
      (JpfbtpFreeThreadData s Irql ThreadData).Allocated = s.Allocated ∧
      (JpfbtpFreeThreadData s Irql ThreadData).Memory = s.Memory := by
  unfold JpfbtpFreeThreadData
  cases hT : (s.Memory ThreadData).AssociationThread <;>
    simp [h, InterlockedPushEntrySList]

theorem JpfbtpFreeThreadData_delayed (s : State) (Irql : Nat) (ThreadData : Ptr)
    (h : (s.Memory ThreadData).AllocationType = JpfbtpPoolAllocated)
    (hi : DISPATCH_LEVEL < Irql) :
    (JpfbtpFreeThreadData s Irql ThreadData).Global =
        { s.Global with ThreadDataFreeList := ThreadData :: s.Global.ThreadDataFreeList } ∧
      (JpfbtpFreeThreadData s Irql ThreadData).Freed = s.Freed ∧
      (JpfbtpFreeThreadData s Irql ThreadData).Allocated = s.Allocated ∧
      (JpfbtpFreeThreadData s Irql ThreadData).Memory = s.Memory := by
  unfold JpfbtpFreeThreadData
  have hi2 : ¬ Irql ≤ DISPATCH_LEVEL := Nat.not_le.mpr hi
  cases hT : (s.Memory ThreadData).AssociationThread <;>
    simp [h, hi2, InterlockedPushEntrySList]

theorem JpfbtpFreeThreadData_freed (s : State) (Irql : Nat) (ThreadData : Ptr)
    (h : (s.Memory ThreadData).AllocationType = JpfbtpPoolAllocated)
    (hi : Irql ≤ DISPATCH_LEVEL) :
    (JpfbtpFreeThreadData s Irql ThreadData).Global =
        { s.Global with ThreadDataFreeList := [] } ∧
      (JpfbtpFreeThreadData s Irql ThreadData).Freed =
        s.Freed ++ ThreadData :: s.Global.ThreadDataFreeList ∧
      (JpfbtpFreeThreadData s Irql ThreadData).Allocated = s.Allocated ∧
      (JpfbtpFreeThreadData s Irql ThreadData).Memory = s.Memory := by
  unfold JpfbtpFreeThreadData
  cases hT : (s.Memory ThreadData).AssociationThread <;>
    simp [h, hi, drainThreadDataFreeList_eq]

/-- The thread a structure is associated with is detached by `JpfbtpFreeThreadData`; the
data attached to every other thread stays. -/
theorem JpfbtpFreeThreadData_tls (s : State) (Irql : Nat) (ThreadData : Ptr) :
    (JpfbtpFreeThreadData s Irql ThreadData).Tls =
      match (s.Memory ThreadData).AssociationThread with
      | some Thread => fun t => if t = Thread then none else s.Tls t
      | none => s.Tls := by
  unfold JpfbtpFreeThreadData
  cases hT : (s.Memory ThreadData).AssociationThread <;>
    simp only [JpfbtSetFbtDataThread] <;> split_ifs <;> rfl

/-! ## The outcomes of an allocation -/

theorem allocate_elevated_empty (s : State) (CurrentThread : PETHREAD) (Irql : Nat)
    (env : AllocationEnvironment) (hi : DISPATCH_LEVEL < Irql)
    (hl : s.Global.ThreadDataPreallocationList = []) :
    JpfbtpAllocateThreadDataForCurrentThread s CurrentThread Irql env =
      (none, { s with Global := { s.Global with
          FailedDirqlThreadDataAllocations :=
            InterlockedIncrement s.Global.FailedDirqlThreadDataAllocations } }) := by
  have hi2 : ¬ Irql ≤ DISPATCH_LEVEL := Nat.not_le.mpr hi
  simp [JpfbtpAllocateThreadDataForCurrentThread, hi2, hl, InterlockedPopEntrySList,
    attachThreadData]

theorem allocate_elevated_attached (s : State) (CurrentThread : PETHREAD) (Irql : Nat)
    (env : AllocationEnvironment) (hi : DISPATCH_LEVEL < Irql) (td : Ptr) (rest : List Ptr)
    (hl : s.Global.ThreadDataPreallocationList = td :: rest)
    (ha : NT_SUCCESS env.AttachStatus = true) :
    JpfbtpAllocateThreadDataForCurrentThread s CurrentThread Irql env =
      (some td, { s with
        Global := { s.Global with ThreadDataPreallocationList := rest }
        Memory := setAssociationThread (setAllocationType s.Memory td JpfbtpPreAllocated) td
          (some CurrentThread)
        Tls := fun t => if t = CurrentThread then some td else s.Tls t }) := by
  have hi2 : ¬ Irql ≤ DISPATCH_LEVEL := Nat.not_le.mpr hi
  simp [JpfbtpAllocateThreadDataForCurrentThread, hi2, hl, InterlockedPopEntrySList,
    attachThreadData, JpfbtSetFbtDataThread, ha]

theorem allocate_elevated_rejected (s : State) (CurrentThread : PETHREAD) (Irql : Nat)
    (env : AllocationEnvironment) (hi : DISPATCH_LEVEL < Irql) (td : Ptr) (rest : List Ptr)
    (hl : s.Global.ThreadDataPreallocationList = td :: rest)
    (ha : NT_SUCCESS env.AttachStatus = false) :
    JpfbtpAllocateThreadDataForCurrentThread s CurrentThread Irql env =
      (none, { s with
        Memory := setAssociationThread (setAssociationThread
          (setAllocationType s.Memory td JpfbtpPreAllocated) td (some CurrentThread)) td none }) := by
  have hi2 : ¬ Irql ≤ DISPATCH_LEVEL := Nat.not_le.mpr hi
  simp [JpfbtpAllocateThreadDataForCurrentThread, hi2, hl, InterlockedPopEntrySList,
    attachThreadData, JpfbtSetFbtDataThread, ha, JpfbtpFreeThreadData, setAssociationThread,
    setAllocationType, InterlockedPushEntrySList]
  rw [← hl]

theorem allocate_low_unguarded (s : State) (CurrentThread : PETHREAD) (Irql : Nat)
    (env : AllocationEnvironment) (hi : Irql ≤ DISPATCH_LEVEL)
    (hp : NT_SUCCESS env.PseudoStatus = false) :
    JpfbtpAllocateThreadDataForCurrentThread s CurrentThread Irql env =
      (none, { s with
        Memory := setPseudoThreadData s.Memory env.PseudoThreadDataBuffer CurrentThread }) := by
  simp [JpfbtpAllocateThreadDataForCurrentThread, hi, JpfbtSetFbtDataThread, hp]

theorem allocate_low_no_memory (s : State) (CurrentThread : PETHREAD) (Irql : Nat)
    (env : AllocationEnvironment) (hi : Irql ≤ DISPATCH_LEVEL)
    (hp : NT_SUCCESS env.PseudoStatus = true) (hm : env.Allocation = none) :
    JpfbtpAllocateThreadDataForCurrentThread s CurrentThread Irql env =
      (none, { s with
        Memory := setPseudoThreadData s.Memory env.PseudoThreadDataBuffer CurrentThread
        Tls := fun t => if t = CurrentThread then none else s.Tls t }) := by
  simp [JpfbtpAllocateThreadDataForCurrentThread, hi, JpfbtSetFbtDataThread, hp, hm,
    attachThreadData]
  funext t
  split_ifs <;> rfl

theorem allocate_low_attached (s : State) (CurrentThread : PETHREAD) (Irql : Nat)
    (env : AllocationEnvironment) (hi : Irql ≤ DISPATCH_LEVEL)
    (hp : NT_SUCCESS env.PseudoStatus = true) (td : Ptr) (hm : env.Allocation = some td)
    (ha : NT_SUCCESS env.AttachStatus = true) :
    JpfbtpAllocateThreadDataForCurrentThread s CurrentThread Irql env =
      (some td, { s with
        Memory := setAssociationThread (setAllocationType
          (setPseudoThreadData s.Memory env.PseudoThreadDataBuffer CurrentThread) td
          JpfbtpPoolAllocated) td (some CurrentThread)
        Tls := fun t => if t = CurrentThread then some td else s.Tls t
        Allocated := s.Allocated ++ [td] }) := by
  simp [JpfbtpAllocateThreadDataForCurrentThread, hi, JpfbtSetFbtDataThread, hp, hm,
    attachThreadData, ha]
  funext t
  split_ifs <;> rfl

theorem allocate_low_rejected (s : State) (CurrentThread : PETHREAD) (Irql : Nat)
    (env : AllocationEnvironment) (hi : Irql ≤ DISPATCH_LEVEL)
    (hp : NT_SUCCESS env.PseudoStatus = true) (td : Ptr) (hm : env.Allocation = some td)
    (ha : NT_SUCCESS env.AttachStatus = false) :
    JpfbtpAllocateThreadDataForCurrentThread s CurrentThread Irql env =
      (none, { s with
        Global := { s.Global with ThreadDataFreeList := [] }
        Memory := setAssociationThread (setAssociationThread (setAllocationType
          (setPseudoThreadData s.Memory env.PseudoThreadDataBuffer CurrentThread) td
          JpfbtpPoolAllocated) td (some CurrentThread)) td none
        Tls := fun t => if t = CurrentThread then none else s.Tls t
        Allocated := s.Allocated ++ [td]
        Freed := s.Freed ++ td :: s.Global.ThreadDataFreeList }) := by
  simp [JpfbtpAllocateThreadDataForCurrentThread, hi, JpfbtSetFbtDataThread, hp, hm,
    attachThreadData, ha, JpfbtpFreeThreadData, setAssociationThread,
    setAllocationType, drainThreadDataFreeList_eq]
  funext t
  split_ifs <;> rfl

theorem NT_SUCCESS_cases (Status : NTSTATUS) :
    NT_SUCCESS Status = true ∨ NT_SUCCESS Status = false := by
  cases NT_SUCCESS Status <;> simp

/-- An allocation above `DISPATCH_LEVEL` that returns a structure took it from the head of the
preallocation list and attached it. -/
theorem allocate_elevated_some (s : State) (CurrentThread : PETHREAD) (Irql : Nat)
    (env : AllocationEnvironment) (hi : DISPATCH_LEVEL < Irql) (td : Ptr)
    (h : (JpfbtpAllocateThreadDataForCurrentThread s CurrentThread Irql env).1 = some td) :
    ∃ rest, s.Global.ThreadDataPreallocationList = td :: rest ∧
      NT_SUCCESS env.AttachStatus = true := by
  cases hl : s.Global.ThreadDataPreallocationList with
  | nil =>
    rw [allocate_elevated_empty s CurrentThread Irql env hi hl] at h
    simp at h
  | cons e rest =>
    rcases NT_SUCCESS_cases env.AttachStatus with ha | ha
    · rw [allocate_elevated_attached s CurrentThread Irql env hi e rest hl ha] at h
      simp at h
      exact ⟨rest, by rw [h], ha⟩
    · rw [allocate_elevated_rejected s CurrentThread Irql env hi e rest hl ha] at h
      simp at h

/-- An allocation at or below `DISPATCH_LEVEL` that returns a structure got it from the
allocator, after the pseudo thread data had been attached, and attached it. -/
theorem allocate_low_some (s : State) (CurrentThread : PETHREAD) (Irql : Nat)
    (env : AllocationEnvironment) (hi : Irql ≤ DISPATCH_LEVEL) (td : Ptr)
    (h : (JpfbtpAllocateThreadDataForCurrentThread s CurrentThread Irql env).1 = some td) :
    NT_SUCCESS env.PseudoStatus = true ∧ env.Allocation = some td ∧
      NT_SUCCESS env.AttachStatus = true := by
  rcases NT_SUCCESS_cases env.PseudoStatus with hp | hp
  · cases hm : env.Allocation with
    | none =>
      rw [allocate_low_no_memory s CurrentThread Irql env hi hp hm] at h
      simp at h
    | some a =>
      rcases NT_SUCCESS_cases env.AttachStatus with ha | ha
      · rw [allocate_low_attached s CurrentThread Irql env hi hp a hm ha] at h
        simp at h
        exact ⟨hp, by rw [h], ha⟩
      · rw [allocate_low_rejected s CurrentThread Irql env hi hp a hm ha] at h
        simp at h
  · rw [allocate_low_unguarded s CurrentThread Irql env hi hp] at h
    simp at h

/-! ## Creation of the global state -/

theorem InterlockedIncrement_eq (Addend : Int) (hlo : -2147483648 ≤ Addend)
    (hhi : Addend < 2147483647) : InterlockedIncrement Addend = Addend + 1 := by
  unfold InterlockedIncrement
  omega

theorem NT_SUCCESS_INVALID_PARAMETER : NT_SUCCESS STATUS_INVALID_PARAMETER = false := rfl

theorem NT_SUCCESS_NO_MEMORY : NT_SUCCESS STATUS_NO_MEMORY = false := rfl

theorem NT_SUCCESS_SUCCESS : NT_SUCCESS STATUS_SUCCESS = true := rfl

theorem Cleanup_success (sys : System) (TempState : Ptr) (TlsInitialized : Bool) :
    JpfbtpCreateGlobalState.Cleanup sys STATUS_SUCCESS TempState TlsInitialized =
      (STATUS_SUCCESS, sys) := by
  simp [JpfbtpCreateGlobalState.Cleanup, NT_SUCCESS_SUCCESS]

theorem Cleanup_status (sys : System) (Status : NTSTATUS) (TempState : Ptr)
    (TlsInitialized : Bool) :
    (JpfbtpCreateGlobalState.Cleanup sys Status TempState TlsInitialized).1 = Status := by
  unfold JpfbtpCreateGlobalState.Cleanup
  split_ifs <;> rfl

/-- When `JpfbtpCreateGlobalState` succeeds, the arguments were valid, the block for the
preallocation was obtained, `JpfbtpGlobalState` points to the new structure, whose
preallocation list holds the structures of the block, whose list of delayed frees is empty,
and whose counter is as `JpfbtpAllocateGlobalStateAndBuffers` left it. -/
theorem JpfbtpCreateGlobalState_success (sys : System) (JPFBT_MAX_BUFFER_SIZE : Nat)
    (MEMORY_ALLOCATION_ALIGNMENT : Nat) (BufferCount BufferSize ThreadDataPreallocations : Nat)
    (StartCollectorThread : Bool) (env : CreationEnvironment)
    (h : NT_SUCCESS (JpfbtpCreateGlobalState sys JPFBT_MAX_BUFFER_SIZE
      MEMORY_ALLOCATION_ALIGNMENT BufferCount BufferSize ThreadDataPreallocations
      StartCollectorThread env).1 = true) :
    ∃ a, env.ThreadDataAllocation = some a ∧
      (JpfbtpCreateGlobalState sys JPFBT_MAX_BUFFER_SIZE
        MEMORY_ALLOCATION_ALIGNMENT BufferCount BufferSize ThreadDataPreallocations
        StartCollectorThread env).2.JpfbtpGlobalState = some env.TempState ∧
      ((JpfbtpCreateGlobalState sys JPFBT_MAX_BUFFER_SIZE
        MEMORY_ALLOCATION_ALIGNMENT BufferCount BufferSize ThreadDataPreallocations
        StartCollectorThread env).2.GlobalData env.TempState).ThreadDataPreallocationList =
        (List.range ThreadDataPreallocations).foldl
          (fun ListHead Index =>
            InterlockedPushEntrySList ListHead (a + Index * env.sizeofThreadData)) [] ∧
      ((JpfbtpCreateGlobalState sys JPFBT_MAX_BUFFER_SIZE
        MEMORY_ALLOCATION_ALIGNMENT BufferCount BufferSize ThreadDataPreallocations
        StartCollectorThread env).2.GlobalData env.TempState).ThreadDataFreeList = [] ∧
      ((JpfbtpCreateGlobalState sys JPFBT_MAX_BUFFER_SIZE
        MEMORY_ALLOCATION_ALIGNMENT BufferCount BufferSize ThreadDataPreallocations
        StartCollectorThread env).2.GlobalData
          env.TempState).FailedDirqlThreadDataAllocations =
        env.InitialData.FailedDirqlThreadDataAllocations := by
  by_cases hv : ThreadDataPreallocations > 1024 ∨ BufferSize > JPFBT_MAX_BUFFER_SIZE ∨
      BufferSize % MEMORY_ALLOCATION_ALIGNMENT ≠ 0
  · simp [JpfbtpCreateGlobalState, hv, NT_SUCCESS_INVALID_PARAMETER] at h
  rcases NT_SUCCESS_cases env.AllocateStatus with ha | ha
  swap
  · simp [JpfbtpCreateGlobalState, hv, JpfbtpAllocateGlobalStateAndBuffers, ha] at h
  rcases NT_SUCCESS_cases env.TlsStatus with ht | ht
  swap
  · simp [JpfbtpCreateGlobalState, hv, JpfbtpAllocateGlobalStateAndBuffers, ha, ht,
      Cleanup_status] at h
  cases hm : env.ThreadDataAllocation with
  | none =>
    simp [JpfbtpCreateGlobalState, hv, JpfbtpAllocateGlobalStateAndBuffers, ha, ht, hm,
      JpfbtsPreallocateThreadData, Cleanup_status, NT_SUCCESS_NO_MEMORY] at h
  | some a =>
    refine ⟨a, rfl, ?_⟩
    have hs := NT_SUCCESS_SUCCESS
    cases StartCollectorThread with
    | false =>
      simp [JpfbtpCreateGlobalState, hv, JpfbtpAllocateGlobalStateAndBuffers, ha, ht, hm,
        JpfbtsPreallocateThreadData, hs, Cleanup_success, setGlobalData, InitializeSListHead]
    | true =>
      rcases NT_SUCCESS_cases env.CreateThreadStatus with hc | hc
      · rcases NT_SUCCESS_cases env.ReferenceStatus with hr | hr
        · simp [JpfbtpCreateGlobalState, hv, JpfbtpAllocateGlobalStateAndBuffers, ha, ht, hm,
            JpfbtsPreallocateThreadData, hs, Cleanup_success, setGlobalData,
            InitializeSListHead, hc, hr]
        · simp [JpfbtpCreateGlobalState, hv, JpfbtpAllocateGlobalStateAndBuffers, ha, ht, hm,
            JpfbtsPreallocateThreadData, hs, Cleanup_success, setGlobalData,
            InitializeSListHead, hc, hr]
      · simp [JpfbtpCreateGlobalState, hv, JpfbtpAllocateGlobalStateAndBuffers, ha, ht, hm,
          JpfbtsPreallocateThreadData, hs, Cleanup_status, hc] at h

/-- The status `JpfbtpCreateGlobalState` returns for valid arguments is the status of the first
step that fails, and `STATUS_SUCCESS` when none does; a failure to reference the collector
thread is not among them. -/
theorem JpfbtpCreateGlobalState_status (sys : System) (JPFBT_MAX_BUFFER_SIZE : Nat)
    (MEMORY_ALLOCATION_ALIGNMENT : Nat) (BufferCount BufferSize ThreadDataPreallocations : Nat)
    (StartCollectorThread : Bool) (env : CreationEnvironment)
    (hv : ¬ (ThreadDataPreallocations > 1024 ∨ BufferSize > JPFBT_MAX_BUFFER_SIZE ∨
      BufferSize % MEMORY_ALLOCATION_ALIGNMENT ≠ 0)) :
    (JpfbtpCreateGlobalState sys JPFBT_MAX_BUFFER_SIZE MEMORY_ALLOCATION_ALIGNMENT BufferCount
      BufferSize ThreadDataPreallocations StartCollectorThread env).1 =
      if NT_SUCCESS env.AllocateStatus = false then env.AllocateStatus
      else if NT_SUCCESS env.TlsStatus = false then env.TlsStatus
      else if env.ThreadDataAllocation = none then STATUS_NO_MEMORY
      else if StartCollectorThread = true ∧ NT_SUCCESS env.CreateThreadStatus = false then
        env.CreateThreadStatus
      else STATUS_SUCCESS := by
  rcases NT_SUCCESS_cases env.AllocateStatus with ha | ha
  swap
  · simp [JpfbtpCreateGlobalState, hv, JpfbtpAllocateGlobalStateAndBuffers, ha]
  rcases NT_SUCCESS_cases env.TlsStatus with ht | ht
  swap
  · simp [JpfbtpCreateGlobalState, hv, JpfbtpAllocateGlobalStateAndBuffers, ha, ht,
      Cleanup_status]
  cases hm : env.ThreadDataAllocation with
  | none =>
    simp [JpfbtpCreateGlobalState, hv, JpfbtpAllocateGlobalStateAndBuffers, ha, ht, hm,
      JpfbtsPreallocateThreadData, Cleanup_status, NT_SUCCESS_NO_MEMORY]
  | some a =>
    have hs := NT_SUCCESS_SUCCESS
    cases StartCollectorThread with
    | false =>
      simp [JpfbtpCreateGlobalState, hv, JpfbtpAllocateGlobalStateAndBuffers, ha, ht, hm,
        JpfbtsPreallocateThreadData, hs, Cleanup_status]
    | true =>
      rcases NT_SUCCESS_cases env.CreateThreadStatus with hc | hc
      · rcases NT_SUCCESS_cases env.ReferenceStatus with hr | hr
        · simp [JpfbtpCreateGlobalState, hv, JpfbtpAllocateGlobalStateAndBuffers, ha, ht, hm,
            JpfbtsPreallocateThreadData, hs, Cleanup_status, hc, hr]
        · simp [JpfbtpCreateGlobalState, hv, JpfbtpAllocateGlobalStateAndBuffers, ha, ht, hm,
            JpfbtsPreallocateThreadData, hs, Cleanup_status, hc, hr]
      · simp [JpfbtpCreateGlobalState, hv, JpfbtpAllocateGlobalStateAndBuffers, ha, ht, hm,
          JpfbtsPreallocateThreadData, hs, Cleanup_status, hc]

/-! ## The preallocation pool -/

theorem preallocate_foldl (a sz N : Nat) (l : List Ptr) :
    (List.range N).foldl (fun ListHead Index =>
        InterlockedPushEntrySList ListHead (a + Index * sz)) l =
      ((List.range N).map (fun Index => a + Index * sz)).reverse ++ l := by
  induction N with
  | zero => simp
  | succ n ih =>
    rw [List.range_succ, List.foldl_append, ih]
    simp [InterlockedPushEntrySList]

theorem preallocate_nodup (a sz N : Nat) (hsz : 0 < sz) :
    ((List.range N).map (fun Index => a + Index * sz)).reverse.Nodup := by
  rw [List.nodup_reverse]
  apply List.Nodup.map _ (List.nodup_range N)
  intro i j hij
  have h2 : i * sz = j * sz := by
    simp only at hij
    omega
  exact Nat.eq_of_mul_eq_mul_right hsz h2

theorem PoolInvariant_acquire (N : Nat) (r : State × List Ptr) (CurrentThread : PETHREAD)
    (Irql : Nat) (env : AllocationEnvironment) (r1 : State × List Ptr)
    (hinv : PoolInvariant N r)
    (hstep : poolStep r (PoolCall.acquire CurrentThread Irql env) = some r1) :
    PoolInvariant N r1 := by
  obtain ⟨hlen, hnd, htag⟩ := hinv
  unfold poolStep at hstep
  by_cases hi : DISPATCH_LEVEL < Irql
  swap
  · simp [hi] at hstep
  simp only [hi, if_true] at hstep
  cases hl : r.1.Global.ThreadDataPreallocationList with
  | nil =>
    rw [allocate_elevated_empty r.1 CurrentThread Irql env hi hl] at hstep
    simp only [Option.some.injEq] at hstep
    subst hstep
    refine ⟨?_, ?_, htag⟩
    · simpa [hl] using hlen
    · simpa [hl] using hnd
  | cons td rest =>
    rw [hl] at hlen hnd
    rcases NT_SUCCESS_cases env.AttachStatus with ha | ha
    · rw [allocate_elevated_attached r.1 CurrentThread Irql env hi td rest hl ha] at hstep
      simp only [Option.some.injEq] at hstep
      subst hstep
      refine ⟨?_, ?_, ?_⟩
      · simp only [List.length_cons] at hlen ⊢
        omega
      · have hmid : (r.2 ++ td :: rest).Perm (td :: (r.2 ++ rest)) := List.perm_middle
        have hp : (td :: r.2 ++ rest).Perm (r.2 ++ td :: rest) := by
          simpa using hmid.symm
        exact hp.nodup_iff.mpr hnd
      · intro p hp
        by_cases hpt : p = td
        · simp [hpt, setAssociationThread, setAllocationType]
        · have hp2 : p ∈ r.2 := by
            rcases List.mem_cons.mp hp with h | h
            · exact absurd h hpt
            · exact h
          simpa [hpt, setAssociationThread, setAllocationType] using htag p hp2
    · rw [allocate_elevated_rejected r.1 CurrentThread Irql env hi td rest hl ha] at hstep
      simp only [Option.some.injEq] at hstep
      subst hstep
      refine ⟨?_, ?_, ?_⟩
      · simpa [hl] using hlen
      · simpa [hl] using hnd
      · intro p hp
        by_cases hpt : p = td
        · simp [hpt, setAssociationThread, setAllocationType]
        · simpa [hpt, setAssociationThread, setAllocationType] using htag p hp

theorem PoolInvariant_release (N : Nat) (r : State × List Ptr) (ThreadData : Ptr)
    (Irql : Nat) (r1 : State × List Ptr) (hinv : PoolInvariant N r)
    (hstep : poolStep r (PoolCall.release ThreadData Irql) = some r1) :
    PoolInvariant N r1 := by
  obtain ⟨hlen, hnd, htag⟩ := hinv
  unfold poolStep at hstep
  by_cases hm : ThreadData ∈ r.2
  swap
  · simp [hm] at hstep
  simp only [hm, if_true, Option.some.injEq] at hstep
  subst hstep
  have h2 : (r.1.Memory ThreadData).AllocationType ≠ JpfbtpPoolAllocated := by
    rw [htag ThreadData hm]; decide
  obtain ⟨hg, _, _, hmem⟩ := JpfbtpFreeThreadData_prealloc r.1 Irql ThreadData h2
  have hperm : (r.2.erase ThreadData ++ ThreadData :: r.1.Global.ThreadDataPreallocationList).Perm
      (r.2 ++ r.1.Global.ThreadDataPreallocationList) := by
    have h3 : (ThreadData :: r.2.erase ThreadData).Perm r.2 := (List.perm_cons_erase hm).symm
    exact List.perm_middle.trans (h3.append_right _)
  refine ⟨?_, ?_, ?_⟩
  · simp only [hg]
    have h4 := hperm.length_eq
    simp only [List.length_append] at h4
    rw [← hlen]
    exact h4
  · simp only [hg]
    exact hperm.nodup_iff.mpr hnd
  · intro p hp
    simp only [hmem]
    exact htag p (List.mem_of_mem_erase hp)

theorem PoolInvariant_run (N : Nat) (calls : List PoolCall) (r r1 : State × List Ptr)
    (hinv : PoolInvariant N r) (hrun : poolRun calls r = some r1) : PoolInvariant N r1 := by
  induction calls generalizing r with
  | nil =>
    simp only [poolRun, Option.some.injEq] at hrun
    subst hrun
    exact hinv
  | cons c cs ih =>
    unfold poolRun at hrun
    cases hs : poolStep r c with
    | none => simp [hs] at hrun
    | some r2 =>
      simp only [hs] at hrun
      cases c with
      | acquire CurrentThread Irql env =>
        exact ih r2 (PoolInvariant_acquire N r CurrentThread Irql env r2 hinv hs) hrun
      | release ThreadData Irql =>
        exact ih r2 (PoolInvariant_release N r ThreadData Irql r2 hinv hs) hrun

/-! ## The drain of the dirty buffers -/

/-- C1: `JpfbtpFreeThreadData` routes a structure by its allocation type and the IRQL.  A structure
tagged `JpfbtpPreAllocated` is pushed onto the preallocation list at any IRQL, the
list of delayed frees is unchanged and nothing is freed.  A structure tagged
`JpfbtpPoolAllocated` that is released above `DISPATCH_LEVEL` is pushed onto the list of
delayed frees, the preallocation list is unchanged and nothing is freed. -/
theorem JpfbtpFreeThreadData_routes (s : State) (Irql : Nat) (ThreadData : Ptr) :
    ((s.Memory ThreadData).AllocationType = JpfbtpPreAllocated →
      (JpfbtpFreeThreadData s Irql ThreadData).Global.ThreadDataPreallocationList =
          ThreadData :: s.Global.ThreadDataPreallocationList ∧
        (JpfbtpFreeThreadData s Irql ThreadData).Global.ThreadDataFreeList =
          s.Global.ThreadDataFreeList ∧
        (JpfbtpFreeThreadData s Irql ThreadData).Freed = s.Freed) ∧
    ((s.Memory ThreadData).AllocationType = JpfbtpPoolAllocated → DISPATCH_LEVEL < Irql →
      (JpfbtpFreeThreadData s Irql ThreadData).Global.ThreadDataFreeList =
          ThreadData :: s.Global.ThreadDataFreeList ∧
        (JpfbtpFreeThreadData s Irql ThreadData).Global.ThreadDataPreallocationList =
          s.Global.ThreadDataPreallocationList ∧
        (JpfbtpFreeThreadData s Irql ThreadData).Freed = s.Freed) := by
  constructor
  · intro h
    have h2 : (s.Memory ThreadData).AllocationType ≠ JpfbtpPoolAllocated := by
      rw [h]; decide
    obtain ⟨hg, hf, _, _⟩ := JpfbtpFreeThreadData_prealloc s Irql ThreadData h2
    simp [hg, hf]
  · intro h hi
    obtain ⟨hg, hf, _, _⟩ := JpfbtpFreeThreadData_delayed s Irql ThreadData h hi
    simp [hg, hf]

/-- The routing of C1 on the example state: the preallocated structure 100 released at IRQL 0
and at IRQL 5, and the pool allocated structure 300 released at IRQL 5. -/
theorem JpfbtpFreeThreadData_routes_witness :
    (exampleState.Memory 100).AllocationType = JpfbtpPreAllocated ∧
    (JpfbtpFreeThreadData exampleState 0 100).Global.ThreadDataPreallocationList =
      [100, 101, 102] ∧
    (JpfbtpFreeThreadData exampleState 0 100).Global.ThreadDataFreeList = [201, 202] ∧
    (JpfbtpFreeThreadData exampleState 0 100).Freed = [] ∧
    (exampleState.Memory 300).AllocationType = JpfbtpPoolAllocated ∧ DISPATCH_LEVEL < 5 ∧
    (JpfbtpFreeThreadData exampleState 5 300).Global.ThreadDataFreeList = [300, 201, 202] ∧
    (JpfbtpFreeThreadData exampleState 5 300).Global.ThreadDataPreallocationList =
      [101, 102] ∧
    (JpfbtpFreeThreadData exampleState 5 300).Freed = [] :=
  ⟨by decide,
    ((JpfbtpFreeThreadData_routes exampleState 0 100).1 (by decide)).1,
    ((JpfbtpFreeThreadData_routes exampleState 0 100).1 (by decide)).2.1,
    ((JpfbtpFreeThreadData_routes exampleState 0 100).1 (by decide)).2.2,
    by decide, by decide,
    ((JpfbtpFreeThreadData_routes exampleState 5 300).2 (by decide) (by decide)).1,
    ((JpfbtpFreeThreadData_routes exampleState 5 300).2 (by decide) (by decide)).2.1,
    ((JpfbtpFreeThreadData_routes exampleState 5 300).2 (by decide) (by decide)).2.2⟩

/-! ### C2 -/

/-- C2: when `JpfbtpFreeThreadData` releases a structure tagged `JpfbtpPoolAllocated` at an
IRQL of at most `DISPATCH_LEVEL`, the frees it performs are exactly the structure itself
followed by the delayed frees in list order, so that each of these structures is freed
exactly once when they are pairwise distinct; the list of delayed frees is empty on return
and the preallocation list is unchanged.  In particular a structure allocated at low IRQL
and released at low IRQL leaves no delayed free behind. -/
theorem JpfbtpFreeThreadData_frees_and_drains (s : State) (Irql : Nat) (ThreadData : Ptr)
    (h : (s.Memory ThreadData).AllocationType = JpfbtpPoolAllocated)
    (hi : Irql ≤ DISPATCH_LEVEL) :
    (JpfbtpFreeThreadData s Irql ThreadData).Freed =
        s.Freed ++ ThreadData :: s.Global.ThreadDataFreeList ∧
      ThreadData ∈ (JpfbtpFreeThreadData s Irql ThreadData).Freed ∧
      (∀ p ∈ s.Global.ThreadDataFreeList, p ∈ (JpfbtpFreeThreadData s Irql ThreadData).Freed) ∧
      ((ThreadData :: s.Global.ThreadDataFreeList).Nodup →
        ∀ p ∈ ThreadData :: s.Global.ThreadDataFreeList,
          (JpfbtpFreeThreadData s Irql ThreadData).Freed.count p = s.Freed.count p + 1) ∧
      (JpfbtpFreeThreadData s Irql ThreadData).Global.ThreadDataFreeList = [] ∧
      (JpfbtpFreeThreadData s Irql ThreadData).Global.ThreadDataPreallocationList =
        s.Global.ThreadDataPreallocationList ∧
      (∀ (CurrentThread : PETHREAD) (env : AllocationEnvironment) (td : Ptr),
        (JpfbtpAllocateThreadDataForCurrentThread s CurrentThread Irql env).1 = some td →
        (JpfbtpFreeThreadData
            (JpfbtpAllocateThreadDataForCurrentThread s CurrentThread Irql env).2 Irql
            td).Global.ThreadDataFreeList = [] ∧
          td ∈ (JpfbtpFreeThreadData
            (JpfbtpAllocateThreadDataForCurrentThread s CurrentThread Irql env).2 Irql
            td).Freed) := by
  obtain ⟨hg, hf, _, _⟩ := JpfbtpFreeThreadData_freed s Irql ThreadData h hi
  refine ⟨hf, ?_, ?_, ?_, ?_, ?_, ?_⟩
  · rw [hf]; simp
  · intro p hp
    rw [hf]
    exact List.mem_append_right _ (List.mem_cons_of_mem _ hp)
  · intro hnd p hp
    rw [hf, List.count_append, List.count_eq_one_of_mem hnd hp]
  · rw [hg]
  · rw [hg]
  · intro CurrentThread env td hr
    obtain ⟨hp, hm, ha⟩ := allocate_low_some s CurrentThread Irql env hi td hr
    have htag : (((JpfbtpAllocateThreadDataForCurrentThread s CurrentThread Irql env).2).Memory
        td).AllocationType = JpfbtpPoolAllocated := by
      rw [allocate_low_attached s CurrentThread Irql env hi hp td hm ha]
      simp [setAssociationThread, setAllocationType]
    obtain ⟨hg2, hf2, _, _⟩ := JpfbtpFreeThreadData_freed _ Irql td htag hi
    rw [hg2, hf2]
    simp

/-- The release of C2 on the example state: the pool allocated structure 300 is released at
IRQL 1 while the structures 201 and 202 wait on the list of delayed frees. -/
theorem JpfbtpFreeThreadData_frees_and_drains_witness :
    (exampleState.Memory 300).AllocationType = JpfbtpPoolAllocated ∧ 1 ≤ DISPATCH_LEVEL ∧
    (JpfbtpFreeThreadData exampleState 1 300).Freed = [300, 201, 202] ∧
    (JpfbtpFreeThreadData exampleState 1 300).Global.ThreadDataFreeList = [] ∧
    (JpfbtpFreeThreadData exampleState 1 300).Global.ThreadDataPreallocationList =
      [101, 102] :=
  ⟨by decide, by decide,
    (JpfbtpFreeThreadData_frees_and_drains exampleState 1 300 (by decide) (by decide)).1,
    (JpfbtpFreeThreadData_frees_and_drains exampleState 1 300 (by decide) (by decide)).2.2.2.2.1,
    (JpfbtpFreeThreadData_frees_and_drains exampleState 1 300 (by decide)
      (by decide)).2.2.2.2.2.1⟩

/-! ### C3 -/

/-- C3: when `JpfbtpAllocateThreadDataForCurrentThread` returns a structure, then above
`DISPATCH_LEVEL` the structure is tagged `JpfbtpPreAllocated` and was the head of the
preallocation list, of which the rest remains; at or below `DISPATCH_LEVEL` it is tagged
`JpfbtpPoolAllocated` and the preallocation list is unchanged; in both cases the structure is
associated with the current thread and is the data attached to the current thread. -/
theorem JpfbtpAllocateThreadDataForCurrentThread_tagged (s : State) (CurrentThread : PETHREAD)
    (Irql : Nat) (env : AllocationEnvironment) (td : Ptr)
    (h : (JpfbtpAllocateThreadDataForCurrentThread s CurrentThread Irql env).1 = some td) :
    (DISPATCH_LEVEL < Irql →
      (((JpfbtpAllocateThreadDataForCurrentThread s CurrentThread Irql env).2.Memory
          td).AllocationType = JpfbtpPreAllocated ∧
        s.Global.ThreadDataPreallocationList = td ::
          (JpfbtpAllocateThreadDataForCurrentThread s CurrentThread Irql
            env).2.Global.ThreadDataPreallocationList)) ∧
    (Irql ≤ DISPATCH_LEVEL →
      (((JpfbtpAllocateThreadDataForCurrentThread s CurrentThread Irql env).2.Memory
          td).AllocationType = JpfbtpPoolAllocated ∧
        (JpfbtpAllocateThreadDataForCurrentThread s CurrentThread Irql
            env).2.Global.ThreadDataPreallocationList =
          s.Global.ThreadDataPreallocationList)) ∧
    ((JpfbtpAllocateThreadDataForCurrentThread s CurrentThread Irql env).2.Memory
        td).AssociationThread = some CurrentThread ∧
    (JpfbtpAllocateThreadDataForCurrentThread s CurrentThread Irql env).2.Tls CurrentThread =
      some td := by
  rcases Nat.lt_or_ge DISPATCH_LEVEL Irql with hi | hi
  · obtain ⟨rest, hl, ha⟩ := allocate_elevated_some s CurrentThread Irql env hi td h
    have hi2 : ¬ Irql ≤ DISPATCH_LEVEL := Nat.not_le.mpr hi
    rw [allocate_elevated_attached s CurrentThread Irql env hi td rest hl ha]
    simp [hi, hi2, hl, setAssociationThread, setAllocationType]
  · obtain ⟨hp, hm, ha⟩ := allocate_low_some s CurrentThread Irql env hi td h
    have hi2 : ¬ DISPATCH_LEVEL < Irql := Nat.not_lt.mpr hi
    rw [allocate_low_attached s CurrentThread Irql env hi hp td hm ha]
    simp [hi, hi2, setAssociationThread, setAllocationType]

/-- The allocations of C3 on the example state: above `DISPATCH_LEVEL` thread 9 gets the
preallocated structure 101, at `PASSIVE_LEVEL` it gets the fresh structure 400. -/
theorem JpfbtpAllocateThreadDataForCurrentThread_tagged_witness :
    (JpfbtpAllocateThreadDataForCurrentThread exampleState 9 5
      { PseudoThreadDataBuffer := 900, PseudoStatus := 0, Allocation := none,
        AttachStatus := 0 }).1 = some 101 ∧
    ((JpfbtpAllocateThreadDataForCurrentThread exampleState 9 5
      { PseudoThreadDataBuffer := 900, PseudoStatus := 0, Allocation := none,
        AttachStatus := 0 }).2.Memory 101).AssociationThread = some 9 ∧
    (JpfbtpAllocateThreadDataForCurrentThread exampleState 9 0
      { PseudoThreadDataBuffer := 900, PseudoStatus := 0, Allocation := some 400,
        AttachStatus := 0 }).1 = some 400 ∧
    (JpfbtpAllocateThreadDataForCurrentThread exampleState 9 0
      { PseudoThreadDataBuffer := 900, PseudoStatus := 0, Allocation := some 400,
        AttachStatus := 0 }).2.Tls 9 = some 400 :=
  ⟨by decide,
    (JpfbtpAllocateThreadDataForCurrentThread_tagged exampleState 9 5
      { PseudoThreadDataBuffer := 900, PseudoStatus := 0, Allocation := none,
        AttachStatus := 0 } 101 (by decide)).2.2.1,
    by decide,
    (JpfbtpAllocateThreadDataForCurrentThread_tagged exampleState 9 0
      { PseudoThreadDataBuffer := 900, PseudoStatus := 0, Allocation := some 400,
        AttachStatus := 0 } 400 (by decide)).2.2.2⟩

/-! ### C4 -/

/-- C4, as stated, fails in two places.  With the counter at the largest `LONG` the interlocked
increment wraps, so the counter does not grow by 1.  And after creation with one preallocated structure,
two allocations above `DISPATCH_LEVEL` during which the structure cannot be
attached to the thread both return `NULL`, and the counter stays 0. -/
theorem JpfbtpAllocateThreadDataForCurrentThread_exhausted_counterexample :
    (exampleExhausted.Global.ThreadDataPreallocationList = [] ∧ DISPATCH_LEVEL < 5 ∧
      (JpfbtpAllocateThreadDataForCurrentThread exampleExhausted 9 5
        exampleAttachSucceeds).2.Global.FailedDirqlThreadDataAllocations ≠
        exampleExhausted.Global.FailedDirqlThreadDataAllocations + 1) ∧
    (exampleCreated.Global.ThreadDataPreallocationList = [6000] ∧
      exampleCreated.Global.FailedDirqlThreadDataAllocations = 0 ∧
      (JpfbtpAllocateThreadDataForCurrentThread exampleCreated 9 5 exampleAttachFails).1 =
        none ∧
      (JpfbtpAllocateThreadDataForCurrentThread
        (JpfbtpAllocateThreadDataForCurrentThread exampleCreated 9 5 exampleAttachFails).2
        10 5 exampleAttachFails).1 = none ∧
      (JpfbtpAllocateThreadDataForCurrentThread
        (JpfbtpAllocateThreadDataForCurrentThread exampleCreated 9 5 exampleAttachFails).2
        10 5 exampleAttachFails).2.Global.FailedDirqlThreadDataAllocations = 0) := by
  decide

/-- C4, amended: with an empty preallocation list, an allocation above `DISPATCH_LEVEL` returns
`NULL`, advances the counter of failed allocations by one interlocked increment, which is
exactly 1 unless the counter is at the largest `LONG`, and leaves both lists, the data
attached to the threads, the memory and the log of frees unchanged.  After a successful
creation with one preallocated structure that leaves the counter at 0, of two successive
allocations above `DISPATCH_LEVEL`, the first of which can attach its structure to the
thread, the first returns a structure tagged `JpfbtpPreAllocated`, the second returns `NULL`,
and the counter is 1. -/
theorem JpfbtpAllocateThreadDataForCurrentThread_exhausted :
    (∀ (s : State) (CurrentThread : PETHREAD) (Irql : Nat) (env : AllocationEnvironment),
      DISPATCH_LEVEL < Irql → s.Global.ThreadDataPreallocationList = [] →
      (JpfbtpAllocateThreadDataForCurrentThread s CurrentThread Irql env).1 = none ∧
      (JpfbtpAllocateThreadDataForCurrentThread s CurrentThread Irql
          env).2.Global.FailedDirqlThreadDataAllocations =
        InterlockedIncrement s.Global.FailedDirqlThreadDataAllocations ∧
      (-2147483648 ≤ s.Global.FailedDirqlThreadDataAllocations →
        s.Global.FailedDirqlThreadDataAllocations < 2147483647 →
        (JpfbtpAllocateThreadDataForCurrentThread s CurrentThread Irql
            env).2.Global.FailedDirqlThreadDataAllocations =
          s.Global.FailedDirqlThreadDataAllocations + 1) ∧
      (JpfbtpAllocateThreadDataForCurrentThread s CurrentThread Irql
          env).2.Global.ThreadDataPreallocationList = s.Global.ThreadDataPreallocationList ∧
      (JpfbtpAllocateThreadDataForCurrentThread s CurrentThread Irql
          env).2.Global.ThreadDataFreeList = s.Global.ThreadDataFreeList ∧
      (JpfbtpAllocateThreadDataForCurrentThread s CurrentThread Irql env).2.Tls = s.Tls ∧
      (JpfbtpAllocateThreadDataForCurrentThread s CurrentThread Irql env).2.Memory =
        s.Memory ∧
      (JpfbtpAllocateThreadDataForCurrentThread s CurrentThread Irql env).2.Freed =
        s.Freed) ∧
    (∀ (sys : System) (JPFBT_MAX_BUFFER_SIZE MEMORY_ALLOCATION_ALIGNMENT : Nat)
      (BufferCount BufferSize : Nat) (StartCollectorThread : Bool)
      (created : CreationEnvironment) (s : State) (Thread1 Thread2 : PETHREAD)
      (Irql1 Irql2 : Nat) (env1 env2 : AllocationEnvironment),
      NT_SUCCESS (JpfbtpCreateGlobalState sys JPFBT_MAX_BUFFER_SIZE
        MEMORY_ALLOCATION_ALIGNMENT BufferCount BufferSize 1 StartCollectorThread
        created).1 = true →
      created.InitialData.FailedDirqlThreadDataAllocations = 0 →
      s.Global = (JpfbtpCreateGlobalState sys JPFBT_MAX_BUFFER_SIZE
        MEMORY_ALLOCATION_ALIGNMENT BufferCount BufferSize 1 StartCollectorThread
        created).2.GlobalData created.TempState →
      DISPATCH_LEVEL < Irql1 → DISPATCH_LEVEL < Irql2 →
      NT_SUCCESS env1.AttachStatus = true →
      ∃ td, (JpfbtpAllocateThreadDataForCurrentThread s Thread1 Irql1 env1).1 = some td ∧
        ((JpfbtpAllocateThreadDataForCurrentThread s Thread1 Irql1 env1).2.Memory
          td).AllocationType = JpfbtpPreAllocated ∧
        (JpfbtpAllocateThreadDataForCurrentThread
          (JpfbtpAllocateThreadDataForCurrentThread s Thread1 Irql1 env1).2
          Thread2 Irql2 env2).1 = none ∧
        (JpfbtpAllocateThreadDataForCurrentThread
          (JpfbtpAllocateThreadDataForCurrentThread s Thread1 Irql1 env1).2
          Thread2 Irql2 env2).2.Global.FailedDirqlThreadDataAllocations = 1) := by
  constructor
  · intro s CurrentThread Irql env hi hl
    rw [allocate_elevated_empty s CurrentThread Irql env hi hl]
    refine ⟨rfl, rfl, ?_, ?_, rfl, rfl, rfl, rfl⟩
    · intro hlo hhi
      exact InterlockedIncrement_eq _ hlo hhi
    · simp [hl]
  · intro sys MAX ALIGN BufferCount BufferSize Start created s Thread1 Thread2 Irql1 Irql2
      env1 env2 hc h0 hs hi1 hi2 ha
    obtain ⟨a, _, _, hlist, _, hcount⟩ :=
      JpfbtpCreateGlobalState_success sys MAX ALIGN BufferCount BufferSize 1 Start created hc
    rw [← hs] at hlist hcount
    have hl : s.Global.ThreadDataPreallocationList = [a] := by
      rw [hlist]
      simp [List.range_succ, InterlockedPushEntrySList]
    refine ⟨a, ?_⟩
    rw [allocate_elevated_attached s Thread1 Irql1 env1 hi1 a [] hl ha]
    refine ⟨rfl, ?_, ?_⟩
    · simp [setAssociationThread, setAllocationType]
    · rw [allocate_elevated_empty _ Thread2 Irql2 env2 hi2 rfl]
      refine ⟨rfl, ?_⟩
      simp only [hcount, h0]
      rfl

/-- The amended C4 on examples: the exhausted example state with the counter reset to 5, and
two allocations after the example creation with one preallocated structure. -/
theorem JpfbtpAllocateThreadDataForCurrentThread_exhausted_witness :
    (JpfbtpAllocateThreadDataForCurrentThread
      { exampleExhausted with
        Global := { exampleExhausted.Global with FailedDirqlThreadDataAllocations := 5 } }
      9 5 exampleAttachSucceeds).2.Global.FailedDirqlThreadDataAllocations = 5 + 1 ∧
    (∃ td, (JpfbtpAllocateThreadDataForCurrentThread exampleCreated 9 5
        exampleAttachSucceeds).1 = some td ∧
      ((JpfbtpAllocateThreadDataForCurrentThread exampleCreated 9 5
        exampleAttachSucceeds).2.Memory td).AllocationType = JpfbtpPreAllocated ∧
      (JpfbtpAllocateThreadDataForCurrentThread
        (JpfbtpAllocateThreadDataForCurrentThread exampleCreated 9 5
          exampleAttachSucceeds).2 10 6 exampleAttachSucceeds).1 = none ∧
      (JpfbtpAllocateThreadDataForCurrentThread
        (JpfbtpAllocateThreadDataForCurrentThread exampleCreated 9 5
          exampleAttachSucceeds).2 10 6
          exampleAttachSucceeds).2.Global.FailedDirqlThreadDataAllocations = 1) :=
  ⟨(JpfbtpAllocateThreadDataForCurrentThread_exhausted.1
      { exampleExhausted with
        Global := { exampleExhausted.Global with FailedDirqlThreadDataAllocations := 5 } }
      9 5 exampleAttachSucceeds (by decide) rfl).2.2.1 (by decide) (by decide),
    JpfbtpAllocateThreadDataForCurrentThread_exhausted.2 exampleSystem 65536 8 8 4096 true
      exampleCreation exampleCreated 9 10 5 6 exampleAttachSucceeds exampleAttachSucceeds
      (by decide) rfl rfl (by decide) (by decide) (by decide)⟩

/-! ### C5 -/

/-- C5: `JpfbtsPreallocateThreadData` with `N` structures, on the freshly initialized lists and
with the block obtained, succeeds and leaves exactly `N` pairwise distinct structures on the
preallocation list.  After every run of allocations above `DISPATCH_LEVEL` and releases of structures
owned through such an allocation, the structures owned and the structures on the
list are `N` altogether, no structure is both owned and on the list, none is on the list
twice or owned twice, and so at most `N` are owned. -/
theorem pool_conservation (N sizeofThreadData Allocation : Nat) (s0 : State)
    (hsize : 0 < sizeofThreadData) :
    (JpfbtsPreallocateThreadData N
      { s0.Global with
        ThreadDataPreallocationList := InitializeSListHead
        ThreadDataFreeList := InitializeSListHead }
      sizeofThreadData (some Allocation)).1 = STATUS_SUCCESS ∧
    (JpfbtsPreallocateThreadData N
      { s0.Global with
        ThreadDataPreallocationList := InitializeSListHead
        ThreadDataFreeList := InitializeSListHead }
      sizeofThreadData (some Allocation)).2.ThreadDataPreallocationList.length = N ∧
    (JpfbtsPreallocateThreadData N
      { s0.Global with
        ThreadDataPreallocationList := InitializeSListHead
        ThreadDataFreeList := InitializeSListHead }
      sizeofThreadData (some Allocation)).2.ThreadDataPreallocationList.Nodup ∧
    ∀ (calls : List PoolCall) (s : State) (owned : List Ptr),
      poolRun calls
        ({ s0 with Global := (JpfbtsPreallocateThreadData N
            { s0.Global with
              ThreadDataPreallocationList := InitializeSListHead
              ThreadDataFreeList := InitializeSListHead }
            sizeofThreadData (some Allocation)).2 }, []) = some (s, owned) →
      owned.length + s.Global.ThreadDataPreallocationList.length = N ∧
        (∀ td ∈ owned, td ∉ s.Global.ThreadDataPreallocationList) ∧
        s.Global.ThreadDataPreallocationList.Nodup ∧ owned.Nodup ∧ owned.length ≤ N := by
  have hlist : (JpfbtsPreallocateThreadData N
      { s0.Global with
        ThreadDataPreallocationList := InitializeSListHead
        ThreadDataFreeList := InitializeSListHead }
      sizeofThreadData (some Allocation)).2.ThreadDataPreallocationList =
      ((List.range N).map (fun Index => Allocation + Index * sizeofThreadData)).reverse := by
    simp [JpfbtsPreallocateThreadData, preallocate_foldl, InitializeSListHead]
  have hnd := preallocate_nodup Allocation sizeofThreadData N hsize
  refine ⟨rfl, ?_, ?_, ?_⟩
  · rw [hlist]; simp
  · rw [hlist]; exact hnd
  · intro calls s owned hrun
    have hinit : PoolInvariant N
        ({ s0 with Global := (JpfbtsPreallocateThreadData N
            { s0.Global with
              ThreadDataPreallocationList := InitializeSListHead
              ThreadDataFreeList := InitializeSListHead }
            sizeofThreadData (some Allocation)).2 }, []) := by
      refine ⟨?_, ?_, ?_⟩
      · simp only [hlist]; simp
      · simp only [hlist, List.nil_append]; exact hnd
      · intro td htd
        simp at htd
    obtain ⟨hlen, hnodup, _⟩ := PoolInvariant_run N calls _ _ hinit hrun
    simp only at hlen hnodup
    rw [List.nodup_append] at hnodup
    refine ⟨hlen, ?_, hnodup.2.1, hnodup.1, ?_⟩
    · intro td h1 h2
      exact hnodup.2.2 h1 h2
    · omega

/-- A run of C5 with two preallocated structures of 64 bytes at 6000, on the example state: it
ends with both structures owned and the list empty. -/
theorem pool_conservation_witness :
    0 < 64 ∧
    ∃ s owned,
      poolRun exampleCalls
        ({ exampleState with Global := (JpfbtsPreallocateThreadData 2
            { exampleState.Global with
              ThreadDataPreallocationList := InitializeSListHead
              ThreadDataFreeList := InitializeSListHead }
            64 (some 6000)).2 }, []) = some (s, owned) ∧
      owned = [6064, 6000] ∧ s.Global.ThreadDataPreallocationList = [] ∧
      s.Global.FailedDirqlThreadDataAllocations = 1 ∧
      owned.length + s.Global.ThreadDataPreallocationList.length = 2 :=
  ⟨by decide, _, _, rfl, by decide, by decide, by decide,
    ((pool_conservation 2 64 6000 exampleState (by decide)).2.2.2 exampleCalls _ _ rfl).1⟩

/-! ### C6 -/

/-- C6: `JpfbtpGetCurrentThreadDataIfAvailable` returns `STATUS_FBT_REENTRANT_ALLOCATION`, a
status different from `STATUS_SUCCESS`, together with `NULL` exactly when the data attached to
the current thread is a pseudo thread data structure; otherwise it returns `STATUS_SUCCESS`
together with the data attached to the current thread, which may be `NULL`.  In every case
the state is as before: nothing is allocated, and the association, both lists and the
counter are unchanged. -/
theorem JpfbtpGetCurrentThreadDataIfAvailable_spec (s : State) (CurrentThread : PETHREAD)
    (STATUS_FBT_REENTRANT_ALLOCATION : NTSTATUS)
    (hstatus : STATUS_FBT_REENTRANT_ALLOCATION ≠ STATUS_SUCCESS) :
    (((JpfbtpGetCurrentThreadDataIfAvailable s CurrentThread
          STATUS_FBT_REENTRANT_ALLOCATION).1 = STATUS_FBT_REENTRANT_ALLOCATION ∧
        (JpfbtpGetCurrentThreadDataIfAvailable s CurrentThread
          STATUS_FBT_REENTRANT_ALLOCATION).2.1 = none) ↔
      ∃ td, s.Tls CurrentThread = some td ∧
        (s.Memory td).AllocationType = JpfbtpPseudoAllocation) ∧
    ((¬ ∃ td, s.Tls CurrentThread = some td ∧
        (s.Memory td).AllocationType = JpfbtpPseudoAllocation) →
      (JpfbtpGetCurrentThreadDataIfAvailable s CurrentThread
          STATUS_FBT_REENTRANT_ALLOCATION).1 = STATUS_SUCCESS ∧
        (JpfbtpGetCurrentThreadDataIfAvailable s CurrentThread
          STATUS_FBT_REENTRANT_ALLOCATION).2.1 = s.Tls CurrentThread) ∧
    (JpfbtpGetCurrentThreadDataIfAvailable s CurrentThread
      STATUS_FBT_REENTRANT_ALLOCATION).2.2 = s := by
  unfold JpfbtpGetCurrentThreadDataIfAvailable JpfbtGetFbtDataCurrentThread
  cases hT : s.Tls CurrentThread with
  | none => simp [hstatus.symm]
  | some td =>
    by_cases hp : (s.Memory td).AllocationType = JpfbtpPseudoAllocation
    · simp [hp]
    · simp [hp, hstatus.symm]

/-- The lookup of C6 on the example state, with -1 standing for
`STATUS_FBT_REENTRANT_ALLOCATION`: thread 7 has the preallocated structure 100 attached. -/
theorem JpfbtpGetCurrentThreadDataIfAvailable_spec_witness :
    (-1 : NTSTATUS) ≠ STATUS_SUCCESS ∧
    (JpfbtpGetCurrentThreadDataIfAvailable exampleState 7 (-1)).1 = STATUS_SUCCESS ∧
    (JpfbtpGetCurrentThreadDataIfAvailable exampleState 7 (-1)).2.1 = some 100 :=
  ⟨by decide,
    (JpfbtpGetCurrentThreadDataIfAvailable_spec exampleState 7 (-1) (by decide)).2.1
      (by
        rintro ⟨td, h1, h2⟩
        have h3 : td = 100 := by
          simp [exampleState] at h1
          exact h1.symm
        subst h3
        simp [exampleState] at h2)⟩

/-! ### C7 -/

/-- C7: if `ThreadDataPreallocations` exceeds 1024, or `BufferSize` exceeds
`JPFBT_MAX_BUFFER_SIZE`, or `BufferSize` is not a multiple of `MEMORY_ALLOCATION_ALIGNMENT`,
then `JpfbtpCreateGlobalState` returns `STATUS_INVALID_PARAMETER` and leaves the system as it
was: nothing is allocated and `JpfbtpGlobalState` is unchanged.  When none of the three
holds, the validation lets the call pass: the status returned is that of the first failing
step after it, so `STATUS_INVALID_PARAMETER` is returned only if one of the routines called
reports it, and the call succeeds when all of them do. -/
theorem JpfbtpCreateGlobalState_validation (sys : System) (JPFBT_MAX_BUFFER_SIZE : Nat)
    (MEMORY_ALLOCATION_ALIGNMENT : Nat) (BufferCount BufferSize ThreadDataPreallocations : Nat)
    (StartCollectorThread : Bool) (env : CreationEnvironment) :
    ((ThreadDataPreallocations > 1024 ∨ BufferSize > JPFBT_MAX_BUFFER_SIZE ∨
        ¬ MEMORY_ALLOCATION_ALIGNMENT ∣ BufferSize) →
      JpfbtpCreateGlobalState sys JPFBT_MAX_BUFFER_SIZE MEMORY_ALLOCATION_ALIGNMENT BufferCount
        BufferSize ThreadDataPreallocations StartCollectorThread env =
        (STATUS_INVALID_PARAMETER, sys)) ∧
    (¬ (ThreadDataPreallocations > 1024 ∨ BufferSize > JPFBT_MAX_BUFFER_SIZE ∨
        ¬ MEMORY_ALLOCATION_ALIGNMENT ∣ BufferSize) →
      ((JpfbtpCreateGlobalState sys JPFBT_MAX_BUFFER_SIZE MEMORY_ALLOCATION_ALIGNMENT
          BufferCount BufferSize ThreadDataPreallocations StartCollectorThread env).1 =
          STATUS_INVALID_PARAMETER →
        env.AllocateStatus = STATUS_INVALID_PARAMETER ∨
          env.TlsStatus = STATUS_INVALID_PARAMETER ∨
          env.CreateThreadStatus = STATUS_INVALID_PARAMETER) ∧
      (NT_SUCCESS env.AllocateStatus = true → NT_SUCCESS env.TlsStatus = true →
        env.ThreadDataAllocation ≠ none →
        (StartCollectorThread = true → NT_SUCCESS env.CreateThreadStatus = true) →
        (JpfbtpCreateGlobalState sys JPFBT_MAX_BUFFER_SIZE MEMORY_ALLOCATION_ALIGNMENT
          BufferCount BufferSize ThreadDataPreallocations StartCollectorThread env).1 =
          STATUS_SUCCESS)) := by
  have hdvd : ¬ MEMORY_ALLOCATION_ALIGNMENT ∣ BufferSize ↔
      BufferSize % MEMORY_ALLOCATION_ALIGNMENT ≠ 0 := by
    rw [Nat.dvd_iff_mod_eq_zero]
  rw [hdvd]
  constructor
  · intro hv
    simp [JpfbtpCreateGlobalState, hv]
  · intro hv
    rw [JpfbtpCreateGlobalState_status sys JPFBT_MAX_BUFFER_SIZE MEMORY_ALLOCATION_ALIGNMENT
      BufferCount BufferSize ThreadDataPreallocations StartCollectorThread env hv]
    constructor
    · intro h
      split_ifs at h with h1 h2 h3 h4
      · exact Or.inl h
      · exact Or.inr (Or.inl h)
      · exact absurd h (by decide)
      · exact Or.inr (Or.inr h)
      · exact absurd h (by decide)
    · intro ha ht hm hc
      have hc2 : ¬ (StartCollectorThread = true ∧ NT_SUCCESS env.CreateThreadStatus = false) := by
        rintro ⟨h1, h2⟩
        rw [hc h1] at h2
        exact absurd h2 (by decide)
      simp [ha, ht, hm, hc2]

/-- The validation of C7 on the example system: 2000 preallocations are rejected and nothing
changes; 1024 preallocations are accepted and the call succeeds. -/
theorem JpfbtpCreateGlobalState_validation_witness :
    (2000 > 1024 ∨ 4096 > 65536 ∨ ¬ 8 ∣ 4096) ∧
    JpfbtpCreateGlobalState exampleSystem 65536 8 8 4096 2000 true exampleCreation =
      (STATUS_INVALID_PARAMETER, exampleSystem) ∧
    ¬ (1024 > 1024 ∨ 4096 > 65536 ∨ ¬ 8 ∣ 4096) ∧
    (JpfbtpCreateGlobalState exampleSystem 65536 8 8 4096 1024 true exampleCreation).1 =
      STATUS_SUCCESS :=
  ⟨by decide,
    (JpfbtpCreateGlobalState_validation exampleSystem 65536 8 8 4096 2000 true
      exampleCreation).1 (by decide),
    by decide,
    ((JpfbtpCreateGlobalState_validation exampleSystem 65536 8 8 4096 1024 true
      exampleCreation).2 (by decide)).2 (by decide) (by decide) (by decide)
      (fun _ => by decide)⟩

/-! ### C8 -/

/-- C8: when `JpfbtpAllocateThreadDataForCurrentThread` has obtained a structure but cannot
attach it to the thread, it returns `NULL` and releases the structure by its tag.  Above
`DISPATCH_LEVEL` the structure popped is tagged `JpfbtpPreAllocated` and pushed back, so the
preallocation list is as before the call, and nothing is freed.  At or below
`DISPATCH_LEVEL` the structure allocated is freed, together with the delayed frees; it is
on neither list afterwards unless it was on the preallocation list before. -/
theorem JpfbtpAllocateThreadDataForCurrentThread_unattached (s : State)
    (CurrentThread : PETHREAD) (Irql : Nat) (env : AllocationEnvironment)
    (hattach : NT_SUCCESS env.AttachStatus = false) :
    (∀ td rest, DISPATCH_LEVEL < Irql → s.Global.ThreadDataPreallocationList = td :: rest →
      (JpfbtpAllocateThreadDataForCurrentThread s CurrentThread Irql env).1 = none ∧
      (JpfbtpAllocateThreadDataForCurrentThread s CurrentThread Irql env).2.Global =
        s.Global ∧
      ((JpfbtpAllocateThreadDataForCurrentThread s CurrentThread Irql env).2.Memory
        td).AllocationType = JpfbtpPreAllocated ∧
      (JpfbtpAllocateThreadDataForCurrentThread s CurrentThread Irql env).2.Freed = s.Freed ∧
      (JpfbtpAllocateThreadDataForCurrentThread s CurrentThread Irql env).2.Tls = s.Tls) ∧
    (∀ td, Irql ≤ DISPATCH_LEVEL → NT_SUCCESS env.PseudoStatus = true →
      env.Allocation = some td →
      (JpfbtpAllocateThreadDataForCurrentThread s CurrentThread Irql env).1 = none ∧
      ((JpfbtpAllocateThreadDataForCurrentThread s CurrentThread Irql env).2.Memory
        td).AllocationType = JpfbtpPoolAllocated ∧
      td ∈ (JpfbtpAllocateThreadDataForCurrentThread s CurrentThread Irql env).2.Freed ∧
      (JpfbtpAllocateThreadDataForCurrentThread s CurrentThread Irql env).2.Freed =
        s.Freed ++ td :: s.Global.ThreadDataFreeList ∧
      (JpfbtpAllocateThreadDataForCurrentThread s CurrentThread Irql
        env).2.Global.ThreadDataFreeList = [] ∧
      (JpfbtpAllocateThreadDataForCurrentThread s CurrentThread Irql
        env).2.Global.ThreadDataPreallocationList = s.Global.ThreadDataPreallocationList ∧
      (JpfbtpAllocateThreadDataForCurrentThread s CurrentThread Irql env).2.Tls
        CurrentThread = none) := by
  constructor
  · intro td rest hi hl
    rw [allocate_elevated_rejected s CurrentThread Irql env hi td rest hl hattach]
    simp [setAssociationThread, setAllocationType]
  · intro td hi hp hm
    rw [allocate_low_rejected s CurrentThread Irql env hi hp td hm hattach]
    simp [setAssociationThread, setAllocationType]

/-- The failing attachment of C8 on the example state, above `DISPATCH_LEVEL` with the structure
101 popped and pushed back, and at `PASSIVE_LEVEL` with the structure 400 freed
along with the delayed frees. -/
theorem JpfbtpAllocateThreadDataForCurrentThread_unattached_witness :
    NT_SUCCESS exampleAttachFails.AttachStatus = false ∧
    (JpfbtpAllocateThreadDataForCurrentThread exampleState 9 5 exampleAttachFails).1 = none ∧
    (JpfbtpAllocateThreadDataForCurrentThread exampleState 9 5
      exampleAttachFails).2.Global.ThreadDataPreallocationList = [101, 102] ∧
    (JpfbtpAllocateThreadDataForCurrentThread exampleState 9 0 exampleAttachFails).1 = none ∧
    (JpfbtpAllocateThreadDataForCurrentThread exampleState 9 0 exampleAttachFails).2.Freed =
      [400, 201, 202] :=
  ⟨by decide,
    ((JpfbtpAllocateThreadDataForCurrentThread_unattached exampleState 9 5 exampleAttachFails
      (by decide)).1 101 [102] (by decide) rfl).1,
    congrArg JPFBT_GLOBAL_DATA.ThreadDataPreallocationList
      ((JpfbtpAllocateThreadDataForCurrentThread_unattached exampleState 9 5
        exampleAttachFails (by decide)).1 101 [102] (by decide) rfl).2.1,
    ((JpfbtpAllocateThreadDataForCurrentThread_unattached exampleState 9 0 exampleAttachFails
      (by decide)).2 400 (by decide) (by decide) rfl).1,
    ((JpfbtpAllocateThreadDataForCurrentThread_unattached exampleState 9 0 exampleAttachFails
      (by decide)).2 400 (by decide) (by decide) rfl).2.2.2.1⟩

/-! ### C9 -/

/-- C9: take a call of `JpfbtpAllocateThreadDataForCurrentThread` at or below `DISPATCH_LEVEL`
on a thread whose attached data is not a pseudo thread data structure (and is not the stack
buffer of the call).  Whatever the allocator returns and whether or not the structure can be
attached, the data attached to the thread on return is not a pseudo thread data structure:
it is the structure returned, tagged `JpfbtpPoolAllocated`, when the result is not `NULL`;
it is `NULL` when the pseudo thread data had been attached and the allocation or the final
attachment failed; and the association is as before when not even the pseudo thread data
could be attached. -/
theorem JpfbtpAllocateThreadDataForCurrentThread_guard_cleared (s : State)
    (CurrentThread : PETHREAD) (Irql : Nat) (env : AllocationEnvironment)
    (hirql : Irql ≤ DISPATCH_LEVEL) (hguard : isReentrancyGuard s CurrentThread = false)
    (hstack : s.Tls CurrentThread ≠ some env.PseudoThreadDataBuffer) :
    isReentrancyGuard (JpfbtpAllocateThreadDataForCurrentThread s CurrentThread Irql env).2
      CurrentThread = false ∧
    (∀ td, (JpfbtpAllocateThreadDataForCurrentThread s CurrentThread Irql env).1 = some td →
      (JpfbtpAllocateThreadDataForCurrentThread s CurrentThread Irql env).2.Tls CurrentThread =
        some td ∧
      ((JpfbtpAllocateThreadDataForCurrentThread s CurrentThread Irql env).2.Memory
        td).AllocationType = JpfbtpPoolAllocated) ∧
    (NT_SUCCESS env.PseudoStatus = true →
      (env.Allocation = none ∨ NT_SUCCESS env.AttachStatus = false) →
      (JpfbtpAllocateThreadDataForCurrentThread s CurrentThread Irql env).1 = none ∧
      (JpfbtpAllocateThreadDataForCurrentThread s CurrentThread Irql env).2.Tls CurrentThread =
        none) ∧
    (NT_SUCCESS env.PseudoStatus = false →
      (JpfbtpAllocateThreadDataForCurrentThread s CurrentThread Irql env).1 = none ∧
      (JpfbtpAllocateThreadDataForCurrentThread s CurrentThread Irql env).2.Tls = s.Tls) := by
  rcases NT_SUCCESS_cases env.PseudoStatus with hp | hp
  · cases hm : env.Allocation with
    | none =>
      rw [allocate_low_no_memory s CurrentThread Irql env hirql hp hm]
      simp [isReentrancyGuard, hp]
    | some a =>
      rcases NT_SUCCESS_cases env.AttachStatus with ha | ha
      · rw [allocate_low_attached s CurrentThread Irql env hirql hp a hm ha]
        simp [isReentrancyGuard, hp, ha, setAssociationThread, setAllocationType]
      · rw [allocate_low_rejected s CurrentThread Irql env hirql hp a hm ha]
        simp [isReentrancyGuard, hp, ha]
  · rw [allocate_low_unguarded s CurrentThread Irql env hirql hp]
    simp only [hp, Bool.false_eq_true, false_implies, and_true, true_and, implies_true]
    refine ⟨?_, ?_⟩
    · unfold isReentrancyGuard at hguard ⊢
      simp only
      cases hT : s.Tls CurrentThread with
      | none => rfl
      | some q =>
        have hq : q ≠ env.PseudoThreadDataBuffer := by
          intro h
          exact hstack (by rw [hT, h])
        simpa [hT, setPseudoThreadData, hq] using hguard
    · intro td h
      simp at h

/-- The calls of C9 on the example state for thread 9, which has no data attached: the structure
400 is allocated and attached; the allocation fails; the attachment fails. -/
theorem JpfbtpAllocateThreadDataForCurrentThread_guard_cleared_witness :
    (0 : Nat) ≤ DISPATCH_LEVEL ∧ isReentrancyGuard exampleState 9 = false ∧
    exampleState.Tls 9 ≠ some 900 ∧
    (JpfbtpAllocateThreadDataForCurrentThread exampleState 9 0 exampleAttachSucceeds).2.Tls 9 =
      some 400 ∧
    isReentrancyGuard
      (JpfbtpAllocateThreadDataForCurrentThread exampleState 9 0 exampleAttachSucceeds).2 9 =
      false ∧
    (JpfbtpAllocateThreadDataForCurrentThread exampleState 9 0 exampleAttachFails).2.Tls 9 =
      none :=
  ⟨by decide, by decide, by decide,
    ((JpfbtpAllocateThreadDataForCurrentThread_guard_cleared exampleState 9 0
      exampleAttachSucceeds (by decide) (by decide) (by decide)).2.1 400 (by decide)).1,
    (JpfbtpAllocateThreadDataForCurrentThread_guard_cleared exampleState 9 0
      exampleAttachSucceeds (by decide) (by decide) (by decide)).1,
    ((JpfbtpAllocateThreadDataForCurrentThread_guard_cleared exampleState 9 0
      exampleAttachFails (by decide) (by decide) (by decide)).2.2.1 (by decide)
      (Or.inr (by decide))).2⟩

/-! ### C10 -/

/-- C10 on the example state: the pool allocated structure 300 is released at IRQL 5 and so
waits on the list of delayed frees.  A later release of the pool allocated structure 301 at
`PASSIVE_LEVEL` frees it.  `JpfbtpFreeGlobalState` instead frees the preallocated block 100
and the global data 5000 only and clears `JpfbtpGlobalState`: the structure 300 is never
freed, and the list in the freed global data still holds it. -/
theorem JpfbtpFreeGlobalState_leaves_delayed_frees :
    (JpfbtpFreeThreadData exampleState 5 300).Global.ThreadDataFreeList = [300, 201, 202] ∧
    300 ∈ (JpfbtpFreeThreadData (JpfbtpFreeThreadData exampleState 5 300) 0 301).Freed ∧
    (JpfbtpFreeThreadData (JpfbtpFreeThreadData exampleState 5 300) 0
      301).Global.ThreadDataFreeList = [] ∧
    exampleTeardown.JpfbtpGlobalState = some 5000 ∧
    (exampleTeardown.GlobalData 5000).ThreadDataFreeList = [300, 201, 202] ∧
    (JpfbtpFreeGlobalState exampleTeardown).Freed = [100, 5000] ∧
    300 ∉ (JpfbtpFreeGlobalState exampleTeardown).Freed ∧
    (JpfbtpFreeGlobalState exampleTeardown).JpfbtpGlobalState = none ∧
    ((JpfbtpFreeGlobalState exampleTeardown).GlobalData 5000).ThreadDataFreeList =
      [300, 201, 202] := by
  decide

/-! ### C11 -/

/-- C11, as stated, fails when the collector thread is created but cannot be referenced: on
the example system `JpfbtpCreateGlobalState` then returns `STATUS_SUCCESS`, frees nothing,
keeps the thread local storage, and leaves `JpfbtpGlobalState` pointing to the new global
data. -/
theorem JpfbtpCreateGlobalState_collector_counterexample :
    ¬ (1 > 1024 ∨ 4096 > 65536 ∨ 4096 % 8 ≠ 0) ∧
    NT_SUCCESS exampleReferenceFails.CreateThreadStatus = true ∧
    NT_SUCCESS exampleReferenceFails.ReferenceStatus = false ∧
    (JpfbtpCreateGlobalState exampleSystem 65536 8 8 4096 1 true exampleReferenceFails).1 =
      STATUS_SUCCESS ∧
    (JpfbtpCreateGlobalState exampleSystem 65536 8 8 4096 1 true
      exampleReferenceFails).2.JpfbtpGlobalState = some 5000 ∧
    (JpfbtpCreateGlobalState exampleSystem 65536 8 8 4096 1 true
      exampleReferenceFails).2.Freed = [] ∧
    (JpfbtpCreateGlobalState exampleSystem 65536 8 8 4096 1 true
      exampleReferenceFails).2.KernelTls = true := by
  decide

/-- C11, amended: take a call of `JpfbtpCreateGlobalState` with `StartCollectorThread` set and
valid arguments, in which the global data, the thread local storage and the preallocated
block have been obtained.  If `PsCreateSystemThread` fails, the call returns its status, a
failure; the preallocated block and then the global data are freed, the thread local storage
is deleted and `JpfbtpGlobalState` is `NULL`.  If the thread is created and
`ObReferenceObjectByHandle` fails, the call does not abort: it returns `STATUS_SUCCESS`,
frees nothing, keeps the thread local storage and leaves `JpfbtpGlobalState` pointing to the
new global data. -/
theorem JpfbtpCreateGlobalState_collector (sys : System) (JPFBT_MAX_BUFFER_SIZE : Nat)
    (MEMORY_ALLOCATION_ALIGNMENT : Nat) (BufferCount BufferSize ThreadDataPreallocations : Nat)
    (env : CreationEnvironment) (Blob : Ptr)
    (hvalid : ¬ (ThreadDataPreallocations > 1024 ∨ BufferSize > JPFBT_MAX_BUFFER_SIZE ∨
      BufferSize % MEMORY_ALLOCATION_ALIGNMENT ≠ 0))
    (hallocate : NT_SUCCESS env.AllocateStatus = true)
    (htls : NT_SUCCESS env.TlsStatus = true)
    (hblob : env.ThreadDataAllocation = some Blob) :
    (NT_SUCCESS env.CreateThreadStatus = false →
      (JpfbtpCreateGlobalState sys JPFBT_MAX_BUFFER_SIZE MEMORY_ALLOCATION_ALIGNMENT
        BufferCount BufferSize ThreadDataPreallocations true env).1 =
        env.CreateThreadStatus ∧
      NT_SUCCESS (JpfbtpCreateGlobalState sys JPFBT_MAX_BUFFER_SIZE
        MEMORY_ALLOCATION_ALIGNMENT BufferCount BufferSize ThreadDataPreallocations true
        env).1 = false ∧
      (JpfbtpCreateGlobalState sys JPFBT_MAX_BUFFER_SIZE MEMORY_ALLOCATION_ALIGNMENT
        BufferCount BufferSize ThreadDataPreallocations true env).2.Freed =
        sys.Freed ++ [Blob, env.TempState] ∧
      (JpfbtpCreateGlobalState sys JPFBT_MAX_BUFFER_SIZE MEMORY_ALLOCATION_ALIGNMENT
        BufferCount BufferSize ThreadDataPreallocations true env).2.KernelTls = false ∧
      (JpfbtpCreateGlobalState sys JPFBT_MAX_BUFFER_SIZE MEMORY_ALLOCATION_ALIGNMENT
        BufferCount BufferSize ThreadDataPreallocations true env).2.JpfbtpGlobalState =
        none) ∧
    (NT_SUCCESS env.CreateThreadStatus = true → NT_SUCCESS env.ReferenceStatus = false →
      (JpfbtpCreateGlobalState sys JPFBT_MAX_BUFFER_SIZE MEMORY_ALLOCATION_ALIGNMENT
        BufferCount BufferSize ThreadDataPreallocations true env).1 = STATUS_SUCCESS ∧
      (JpfbtpCreateGlobalState sys JPFBT_MAX_BUFFER_SIZE MEMORY_ALLOCATION_ALIGNMENT
        BufferCount BufferSize ThreadDataPreallocations true env).2.Freed = sys.Freed ∧
      (JpfbtpCreateGlobalState sys JPFBT_MAX_BUFFER_SIZE MEMORY_ALLOCATION_ALIGNMENT
        BufferCount BufferSize ThreadDataPreallocations true env).2.KernelTls = true ∧
      (JpfbtpCreateGlobalState sys JPFBT_MAX_BUFFER_SIZE MEMORY_ALLOCATION_ALIGNMENT
        BufferCount BufferSize ThreadDataPreallocations true env).2.JpfbtpGlobalState =
        some env.TempState) := by
  have hs := NT_SUCCESS_SUCCESS
  constructor
  · intro hc
    simp [JpfbtpCreateGlobalState, hvalid, JpfbtpAllocateGlobalStateAndBuffers, hallocate,
      htls, hblob, JpfbtsPreallocateThreadData, hs, hc, JpfbtpCreateGlobalState.Cleanup,
      JpfbtsFreePreallocatedThreadData, setGlobalData]
  · intro hc hr
    simp [JpfbtpCreateGlobalState, hvalid, JpfbtpAllocateGlobalStateAndBuffers, hallocate,
      htls, hblob, JpfbtsPreallocateThreadData, hs, hc, hr, Cleanup_success]

/-- The amended C11 on the example system: with `PsCreateSystemThread` failing the block 6000
and the global data 5000 are freed and `JpfbtpGlobalState` is `NULL`; with
`ObReferenceObjectByHandle` failing the call succeeds. -/
theorem JpfbtpCreateGlobalState_collector_witness :
    ¬ (1 > 1024 ∨ 4096 > 65536 ∨ 4096 % 8 ≠ 0) ∧
    NT_SUCCESS exampleCreateThreadFails.CreateThreadStatus = false ∧
    (JpfbtpCreateGlobalState exampleSystem 65536 8 8 4096 1 true
      exampleCreateThreadFails).1 = STATUS_NO_MEMORY ∧
    (JpfbtpCreateGlobalState exampleSystem 65536 8 8 4096 1 true
      exampleCreateThreadFails).2.Freed = [6000, 5000] ∧
    (JpfbtpCreateGlobalState exampleSystem 65536 8 8 4096 1 true
      exampleCreateThreadFails).2.JpfbtpGlobalState = none ∧
    (JpfbtpCreateGlobalState exampleSystem 65536 8 8 4096 1 true
      exampleReferenceFails).1 = STATUS_SUCCESS :=
  ⟨by decide, by decide,
    ((JpfbtpCreateGlobalState_collector exampleSystem 65536 8 8 4096 1
      exampleCreateThreadFails 6000 (by decide) (by decide) (by decide) rfl).1
      (by decide)).1,
    ((JpfbtpCreateGlobalState_collector exampleSystem 65536 8 8 4096 1
      exampleCreateThreadFails 6000 (by decide) (by decide) (by decide) rfl).1
      (by decide)).2.2.1,
    ((JpfbtpCreateGlobalState_collector exampleSystem 65536 8 8 4096 1
      exampleCreateThreadFails 6000 (by decide) (by decide) (by decide) rfl).1
      (by decide)).2.2.2.2,
    ((JpfbtpCreateGlobalState_collector exampleSystem 65536 8 8 4096 1
      exampleReferenceFails 6000 (by decide) (by decide) (by decide) rfl).2
      (by decide) (by decide)).1⟩

/-! ### C12 -/

end Jpfbt
